import Mathlib

/-!
Shallow embedding of the banking mock-data generator (src/main.ts) and proofs
about it.

Modelling conventions, kept uniform through the file:

* JS numbers are modelled as exact rationals (the numeric literals of the
  source are exact decimals); integer-valued quantities use Nat or Int.
* A JS Date instant is its epoch value in milliseconds, an Int.  The ISO-8601
  rendering of a calendar date is in bijection with the epoch day number
  floor(ms / 86400000), so the day string produced by toISOString().split("T")
  is modelled by rendering that day number; both the generator and the
  validator use the same rendering, which is all the source relies on.
* Math.random() is an oracle: an arbitrary stream of rationals consumed in
  exactly the order the source calls Math.random().  randomUUID() is a second
  oracle stream of strings.  Math.exp / log / cos / sqrt and Math.PI are
  floating-point transcendentals; they are modelled as unconstrained oracle
  functions, and every theorem quantifies over them (or never consults them).
* The fixed UTC offset of the host timezone is a parameter tz (minutes,
  local = UTC + tz).  Date.prototype.setHours works on local time while
  toISOString works on UTC; the model keeps both, which is where claim C1 is
  decided.
* JS values that may be undefined are modelled with Option; JS truthiness on
  numbers (undefined and 0 are falsy) and the template-literal rendering of
  undefined (the string "undefined") are modelled explicitly at each use site.
-/

/- The core rational operations are irreducible by default, which blocks the
evaluation of concrete runs of the embedded program by the decide tactic;
they are made semireducible for this file so that closed computations over
exact rationals reduce. -/
attribute [local semireducible] Rat.add Rat.mul Rat.inv Rat.sub Rat.ofScientific

/-- Math.round for exact rationals: round half toward positive infinity. -/
def jsRound (q : ℚ) : ℤ := Int.floor (q + 1/2)

/-- Math.floor. -/
def jsFloor (q : ℚ) : ℤ := Int.floor q

/-- Number of days from 1970-01-01 to the civil date y-m-d (Gregorian),
as computed by JS Date parsing of an ISO date string (UTC midnight). -/
def daysFromCivil (y : ℤ) (m d : ℕ) : ℤ :=
  let y' : ℤ := if m ≤ 2 then y - 1 else y
  let era : ℤ := Int.fdiv y' 400
  let yoe : ℤ := y' - era * 400
  let doy : ℤ := (153 * ((m : ℤ) + (if m > 2 then -3 else 9)) + 2) / 5 + (d : ℤ) - 1
  let doe : ℤ := yoe * 365 + yoe / 4 - yoe / 100 + doy
  era * 146097 + doe - 719468

/-- Epoch milliseconds of UTC midnight of a civil date, the value of
new Date("y-m-d").getTime() for the ISO date strings of the source tables. -/
def dateMs (y : ℤ) (m d : ℕ) : ℤ := daysFromCivil y m d * 86400000

/-- Epoch day number of an instant (the date part of toISOString). -/
def dayNumOf (t : ℤ) : ℤ := Int.fdiv t 86400000

/-- The date string of toISOString().split("T")[0], modelled as the rendering
of the epoch day number (a bijective image of the ISO date string). -/
def dayStrOf (t : ℤ) : String := toString (dayNumOf t)

/-- getUTCHours() of an instant. -/
def utcHourOf (t : ℤ) : ℕ := ((Int.emod t 86400000) / 3600000).toNat

/-- getUTCDay() of an instant (0 = Sunday; epoch day 0 was a Thursday). -/
def utcDowOf (t : ℤ) : ℕ := ((Int.emod (dayNumOf t + 4) 7)).toNat

/-- String.prototype.padStart(3, "0") on the decimal rendering of a natural
number, used for the branch-code 3-digit sequence. -/
def pad3 (n : ℕ) : String :=
  if n < 10 then "00" ++ toString n
  else if n < 100 then "0" ++ toString n
  else toString n

/-- Oracles of the run: the Math.random() stream, the randomUUID() stream,
the single instant taken for new Date() (the run is modelled at one instant),
the host UTC offset in minutes, and the floating-point transcendentals. -/
structure Env where
  stream : ℕ → ℚ
  uuid : ℕ → String
  now : ℤ
  tz : ℤ
  exp : ℚ → ℚ
  log : ℚ → ℚ
  cos : ℚ → ℚ
  sqrt : ℚ → ℚ
  pi : ℚ

/-- Consumption state: next index into the Math.random() stream and into the
randomUUID() stream. -/
abbrev RState := ℕ × ℕ

/-- One call of Math.random(). -/
def draw (env : Env) (st : RState) : ℚ × RState :=
  (env.stream st.1, (st.1 + 1, st.2))

/-- One call of randomUUID(). -/
def freshUuid (env : Env) (st : RState) : String × RState :=
  (env.uuid st.2, (st.1, st.2 + 1))

/-- The CONFIG object.  The ratio fields ANALYTICS_RATIO, PERFORMANCE_RATIO
and CRASH_RATIO of the source are named ratioAnalytics, ratioPerformance and
ratioCrash here. -/
structure Config where
  TOTAL_EVENTS_TARGET : ℕ
  DATE_RANGE_DAYS : ℕ
  ratioAnalytics : ℚ
  ratioPerformance : ℚ
  ratioCrash : ℚ
  SESSIONS_PER_DAY : ℕ
  EVENTS_PER_SESSION_AVG : ℚ
deriving DecidableEq

/-- The configuration constants of the source. -/
def CONFIG : Config :=
  { TOTAL_EVENTS_TARGET := 45000
    DATE_RANGE_DAYS := 60
    ratioAnalytics := 0.65
    ratioPerformance := 0.3
    ratioCrash := 0.05
    SESSIONS_PER_DAY := 1200
    EVENTS_PER_SESSION_AVG := 5.2 }

/-- The RawEvent record.  Enum-like string unions (source, platform,
release_channel, device_tier, network_type, perf_type, crash_type) are plain
strings, as the source compares them by string equality.  is_crash and
is_fatal are the 0/1 numbers of the source.  The route field of the interface
is never assigned by the source and is omitted. -/
structure RawEvent where
  id : String
  source : String
  timestamp : ℤ
  day : String
  hour : ℕ
  app_id : String
  app_name : String
  platform : String
  release_channel : String
  app_version : String
  build_number : String
  os_version : String
  device_model : String
  device_tier : String
  country : String
  locale : String
  network_type : String
  carrier : Option String
  session_id : String
  user_pseudo_id : String
  count : ℕ
  event_name : String
  screen : Option String
  http_method : Option String
  value_num : Option ℚ
  revenue_usd : ℚ
  duration_ms : Option ℚ
  ttfb_ms : Option ℚ
  payload_bytes : Option ℚ
  status_code : Option ℤ
  success : Option Bool
  fps_avg : Option ℚ
  cpu_ms : Option ℚ
  memory_mb : Option ℚ
  is_crash : ℕ
  is_fatal : ℕ
  crash_group_id : Option String
  exception_type : Option String
  perf_type : Option String
  trace_name : Option String
  analytics_event : Option String
  foreground : Option Bool
  crash_type : Option String
  url_path : Option String
  currency : Option String
  transaction_type : Option String
  account_type : Option String
  branch_code : Option String
deriving DecidableEq

/-- The DailyRollup record.  Fields the source assigns only conditionally are
Option (absent = none). -/
structure DailyRollup where
  day : String
  source : String
  platform : String
  app_id : String
  app_version : String
  release_channel : String
  country : String
  device_tier : String
  event_group : String
  events_count : ℕ
  users_count : ℕ
  sessions_count : ℕ
  avg_duration_ms : Option ℚ
  p50_duration_ms : Option ℚ
  p90_duration_ms : Option ℚ
  p99_duration_ms : Option ℚ
  http_error_rate : Option ℚ
  crash_rate_per_1k_sessions : Option ℚ
  revenue_usd : ℚ
  purchase_count : ℕ
deriving DecidableEq

/-- An AppVersion of the version tables: release_date is the epoch value of
the ISO date of the source. -/
structure AppVersion where
  version : String
  build_number : String
  release_date : ℤ
deriving DecidableEq

/-- ValidationResult.  The stats map of the source is a heterogeneous
Record<string, any> that is only written, never read by any check, and does
not influence errors, warnings or isValid; it is omitted from the model. -/
structure ValidationResult where
  isValid : Bool
  errors : List String
  warnings : List String
deriving DecidableEq

/-- An entry of the APPS catalog. -/
structure AppRec where
  id : String
  name : String
  countries : List String
  isBranchApp : Bool
deriving DecidableEq

/-- The APPS catalog (isBranchApp defaults to false where the source omits
it). -/
def APPS : List AppRec :=
  [ { id := "eabank_main", name := "EABank Mobile",
      countries := ["KE", "UG", "TZ", "SS", "RW"], isBranchApp := false }
  , { id := "bancaire_drc", name := "Bancaire DRC",
      countries := ["DRC"], isBranchApp := false }
  , { id := "eabank_branch", name := "EABank Branch",
      countries := ["KE", "UG", "TZ", "SS", "RW"], isBranchApp := true } ]

/-- A locale entry: code and display name; the weight is carried alongside as
the second pair component. -/
structure LocaleRec where
  code : String
  name : String
deriving DecidableEq

/-- A country entry; its weight is carried alongside as the second pair
component of the COUNTRIES list. -/
structure CountryRec where
  code : String
  carriers : List String
  locales : List (LocaleRec × ℚ)
deriving DecidableEq

/-- The COUNTRIES catalog with its weights. -/
def COUNTRIES : List (CountryRec × ℚ) :=
  [ ({ code := "KE", carriers := ["Safaricom", "Airtel Kenya"],
       locales := [ ({ code := "EN", name := "English" }, 0.5)
                  , ({ code := "SW", name := "Swahili" }, 0.45)
                  , ({ code := "ZH", name := "Chinese" }, 0.05) ] }, 0.35)
  , ({ code := "UG", carriers := ["MTN Uganda", "Airtel Uganda"],
       locales := [ ({ code := "EN", name := "English" }, 0.85)
                  , ({ code := "SW", name := "Swahili" }, 0.15) ] }, 0.2)
  , ({ code := "TZ", carriers := ["Vodacom Tanzania", "Airtel Tanzania"],
       locales := [ ({ code := "SW", name := "Swahili" }, 0.7)
                  , ({ code := "EN", name := "English" }, 0.3) ] }, 0.18)
  , ({ code := "RW", carriers := ["MTN Rwanda", "Airtel Rwanda"],
       locales := [ ({ code := "RW", name := "Kinyarwanda" }, 0.6)
                  , ({ code := "EN", name := "English" }, 0.25)
                  , ({ code := "FR", name := "French" }, 0.15) ] }, 0.12)
  , ({ code := "DRC", carriers := ["Orange DRC", "Vodacom DRC"],
       locales := [ ({ code := "FR", name := "French" }, 0.75)
                  , ({ code := "SW", name := "Swahili" }, 0.15)
                  , ({ code := "EN", name := "English" }, 0.1) ] }, 0.1)
  , ({ code := "SS", carriers := ["MTN South Sudan", "Zain South Sudan"],
       locales := [ ({ code := "EN", name := "English" }, 0.9)
                  , ({ code := "FR", name := "French" }, 0.1) ] }, 0.05) ]

/-- A device catalog entry; its weight is carried alongside as the second
pair component. -/
structure DeviceRec where
  model : String
  tier : String
deriving DecidableEq

/-- The DEVICES catalog, indexed by platform string (ios / android / web).
An unknown platform yields the empty list (unreachable in the source). -/
def DEVICES (platform : String) : List (DeviceRec × ℚ) :=
  if platform = "ios" then
    [ ({ model := "iPhone 14", tier := "high" }, 0.08)
    , ({ model := "iPhone 13", tier := "high" }, 0.12)
    , ({ model := "iPhone 12", tier := "mid" }, 0.15)
    , ({ model := "iPhone 11", tier := "mid" }, 0.18)
    , ({ model := "iPhone SE 3rd gen", tier := "low" }, 0.25)
    , ({ model := "iPhone XR", tier := "low" }, 0.22) ]
  else if platform = "android" then
    [ ({ model := "Samsung Galaxy A54", tier := "mid" }, 0.15)
    , ({ model := "Samsung Galaxy A34", tier := "mid" }, 0.18)
    , ({ model := "Samsung Galaxy A13", tier := "low" }, 0.2)
    , ({ model := "Tecno Spark 10", tier := "low" }, 0.22)
    , ({ model := "Infinix Note 12", tier := "low" }, 0.15)
    , ({ model := "Oppo A57", tier := "low" }, 0.1) ]
  else if platform = "web" then
    [ ({ model := "Chrome Desktop", tier := "high" }, 0.45)
    , ({ model := "Safari Desktop", tier := "high" }, 0.15)
    , ({ model := "Firefox Desktop", tier := "mid" }, 0.25)
    , ({ model := "Chrome Mobile", tier := "mid" }, 0.15) ]
  else []

/-- The VERSIONS_WITH_RELEASES table as a nested association list
app id -> channel -> platform -> version list, with release dates as epoch
values of the ISO dates of the source. -/
def VERSIONS_WITH_RELEASES :
    List (String × List (String × List (String × List AppVersion))) :=
  [ ("eabank_main",
      [ ("prod",
          [ ("ios",
              [ { version := "3.2.1", build_number := "3210", release_date := dateMs 2025 7 10 }
              , { version := "3.1.5", build_number := "3150", release_date := dateMs 2025 6 15 }
              , { version := "3.0.8", build_number := "3080", release_date := dateMs 2025 5 20 }
              , { version := "2.9.3", build_number := "2930", release_date := dateMs 2025 4 10 } ])
          , ("android",
              [ { version := "3.2.1", build_number := "32100", release_date := dateMs 2025 7 12 }
              , { version := "3.1.5", build_number := "31500", release_date := dateMs 2025 6 18 }
              , { version := "3.0.8", build_number := "30800", release_date := dateMs 2025 5 22 }
              , { version := "2.9.3", build_number := "29300", release_date := dateMs 2025 4 12 } ])
          , ("web",
              [ { version := "4.1.2", build_number := "4120", release_date := dateMs 2025 7 8 }
              , { version := "4.0.8", build_number := "4080", release_date := dateMs 2025 6 12 }
              , { version := "3.9.5", build_number := "3950", release_date := dateMs 2025 5 15 } ]) ])
      , ("pilot",
          [ ("ios",
              [ { version := "3.3.0-pilot.2", build_number := "3302", release_date := dateMs 2025 7 18 }
              , { version := "3.2.2-pilot.1", build_number := "3221", release_date := dateMs 2025 7 5 } ])
          , ("android",
              [ { version := "3.3.0-pilot.2", build_number := "33002", release_date := dateMs 2025 7 19 }
              , { version := "3.2.2-pilot.1", build_number := "32201", release_date := dateMs 2025 7 6 } ])
          , ("web",
              [ { version := "4.2.0-pilot.2", build_number := "4202", release_date := dateMs 2025 7 16 }
              , { version := "4.2.0-pilot.1", build_number := "4201", release_date := dateMs 2025 7 14 } ]) ])
      , ("uat",
          [ ("ios",
              [ { version := "3.3.1-uat.5", build_number := "3315", release_date := dateMs 2025 7 19 }
              , { version := "3.3.0-uat.8", build_number := "3308", release_date := dateMs 2025 7 12 } ])
          , ("android",
              [ { version := "3.3.1-uat.5", build_number := "33105", release_date := dateMs 2025 7 19 }
              , { version := "3.3.0-uat.8", build_number := "33008", release_date := dateMs 2025 7 13 } ])
          , ("web",
              [ { version := "4.2.1-uat.3", build_number := "4213", release_date := dateMs 2025 7 18 }
              , { version := "4.2.0-uat.7", build_number := "4207", release_date := dateMs 2025 6 14 } ]) ])
      , ("dev",
          [ ("ios",
              [ { version := "3.4.0-dev.12", build_number := "34012", release_date := dateMs 2025 7 19 }
              , { version := "3.4.0-dev.11", build_number := "34011", release_date := dateMs 2025 7 18 }
              , { version := "3.4.0-dev.10", build_number := "34010", release_date := dateMs 2025 7 17 } ])
          , ("android",
              [ { version := "3.4.0-dev.12", build_number := "340012", release_date := dateMs 2025 7 19 }
              , { version := "3.4.0-dev.11", build_number := "340011", release_date := dateMs 2025 7 18 } ])
          , ("web",
              [ { version := "4.3.0-dev.8", build_number := "4308", release_date := dateMs 2025 7 19 }
              , { version := "4.2.0-dev.3", build_number := "4203", release_date := dateMs 2025 7 18 }
              , { version := "4.1.0-dev.5", build_number := "4105", release_date := dateMs 2025 7 17 } ]) ]) ])
  , ("bancaire_drc",
      [ ("prod",
          [ ("ios",
              [ { version := "2.1.3", build_number := "213", release_date := dateMs 2025 7 14 }
              , { version := "2.0.9", build_number := "209", release_date := dateMs 2025 6 20 } ])
          , ("android",
              [ { version := "2.1.3", build_number := "21300", release_date := dateMs 2025 7 15 }
              , { version := "2.0.9", build_number := "20900", release_date := dateMs 2025 6 22 } ])
          , ("web",
              [ { version := "2.5.1", build_number := "251", release_date := dateMs 2025 7 11 } ]) ])
      , ("pilot",
          [ ("ios",
              [ { version := "2.2.0-pilot.1", build_number := "2201", release_date := dateMs 2025 7 17 } ])
          , ("android",
              [ { version := "2.2.0-pilot.1", build_number := "22001", release_date := dateMs 2025 7 17 } ])
          , ("web",
              [ { version := "2.6.0-pilot.1", build_number := "2601", release_date := dateMs 2025 7 16 } ]) ])
      , ("uat",
          [ ("ios",
              [ { version := "2.2.1-uat.3", build_number := "2213", release_date := dateMs 2025 7 18 } ])
          , ("android",
              [ { version := "2.2.1-uat.3", build_number := "22103", release_date := dateMs 2025 7 18 } ])
          , ("web",
              [ { version := "2.6.1-uat.2", build_number := "2612", release_date := dateMs 2025 7 18 } ]) ])
      , ("dev",
          [ ("ios",
              [ { version := "2.3.0-dev.5", build_number := "2305", release_date := dateMs 2025 7 19 } ])
          , ("android",
              [ { version := "2.3.0-dev.5", build_number := "23005", release_date := dateMs 2025 7 19 } ])
          , ("web",
              [ { version := "2.7.0-dev.3", build_number := "2703", release_date := dateMs 2025 7 19 } ]) ]) ])
  , ("eabank_branch",
      [ ("prod",
          [ ("web",
              [ { version := "4.1.2", build_number := "4120", release_date := dateMs 2025 7 9 }
              , { version := "4.0.8", build_number := "4080", release_date := dateMs 2025 6 14 } ])
          , ("ios",
              [ { version := "1.2.1", build_number := "121", release_date := dateMs 2025 7 13 } ])
          , ("android",
              [ { version := "1.2.1", build_number := "12100", release_date := dateMs 2025 7 14 } ]) ])
      , ("pilot",
          [ ("web",
              [ { version := "4.2.0-pilot.1", build_number := "4201", release_date := dateMs 2025 7 17 } ]) ])
      , ("uat",
          [ ("web",
              [ { version := "4.2.1-uat.2", build_number := "4212", release_date := dateMs 2025 7 18 } ]) ])
      , ("dev",
          [ ("web",
              [ { version := "4.3.0-dev.6", build_number := "4306", release_date := dateMs 2025 7 19 } ]) ]) ]) ]

/-- MOBILE_SCREENS. -/
def MOBILE_SCREENS : List String :=
  [ "Login", "Dashboard", "AccountBalance", "TransferMoney", "PayBills",
    "LoanApplication", "Settings", "TransactionHistory", "CustomerSupport",
    "TransferConfirmation", "BillPayConfirmation", "ProfileSettings" ]

/-- BRANCH_SCREENS. -/
def BRANCH_SCREENS : List String :=
  [ "CustomerLookup", "AccountOpening", "TransactionProcessing",
    "LoanProcessing", "CustomerService", "CashDeposit", "CashWithdrawal",
    "AccountMaintenance", "KYCVerification", "DocumentScanning" ]

/-- API_ENDPOINTS. -/
def API_ENDPOINTS : List String :=
  [ "v3/auth/login", "v3/accounts/balance", "v3/transfer/domestic",
    "v3/transfer/international", "v3/bills/pay", "v3/loans/apply",
    "v3/transactions/history", "v3/customer/profile", "v3/kyc/verify" ]

/-- BRANCH_ENDPOINTS. -/
def BRANCH_ENDPOINTS : List String :=
  [ "v4/branch/customer/lookup", "v4/branch/accounts/open",
    "v4/branch/transactions/process", "v4/branch/cash/deposit",
    "v4/branch/cash/withdrawal", "v4/branch/kyc/update" ]

/-- A crash group; its weight is carried alongside as the second pair
component of CRASH_GROUPS. -/
structure CrashGroupRec where
  id : String
  type : String
deriving DecidableEq

/-- CRASH_GROUPS with weights. -/
def CRASH_GROUPS : List (CrashGroupRec × ℚ) :=
  [ ({ id := "cg_network_timeout_main", type := "NetworkTimeoutException" }, 0.25)
  , ({ id := "cg_auth_failure", type := "AuthenticationException" }, 0.18)
  , ({ id := "cg_database_connection", type := "DatabaseException" }, 0.15)
  , ({ id := "cg_encryption_error", type := "EncryptionException" }, 0.12)
  , ({ id := "cg_network_timeout_drc", type := "NetworkTimeoutException" }, 0.1)
  , ({ id := "cg_memory_pressure", type := "OutOfMemoryError" }, 0.08)
  , ({ id := "cg_ui_thread_block", type := "ANRException" }, 0.12) ]

/-- TRANSACTION_TYPES. -/
def TRANSACTION_TYPES : List String :=
  [ "domestic_transfer", "international_transfer", "bill_payment",
    "loan_payment", "mobile_money", "card_payment" ]

/-- ACCOUNT_TYPES. -/
def ACCOUNT_TYPES : List String := ["savings", "current", "fixed_deposit", "loan"]

/-- The cumulative-subtraction loop of weightedChoice.  The first argument
keeps the original item list for the fall-back return items[items.length-1];
on an empty original list the fall-back is the JS undefined, modelled none. -/
def weightedGo (orig : List (α × ℚ)) : List (α × ℚ) → ℚ → Option α
  | [], _ => (orig.getLast?).map Prod.fst
  | (a, w) :: rest, r => if r - w ≤ 0 then some a else weightedGo orig rest (r - w)

/-- Total weight of an item list, the reduce((sum, item) => sum + item.weight, 0)
of the source. -/
def totalWeight (items : List (α × ℚ)) : ℚ :=
  items.foldl (fun acc it => acc + it.2) 0

/-- weightedChoice: items paired with their weights, u the uniform draw that
the source scales by the total weight. -/
def weightedChoice (items : List (α × ℚ)) (u : ℚ) : Option α :=
  weightedGo items items (u * totalWeight items)

/-- randomChoice: array[Math.floor(u * array.length)]; an out-of-range index
(possible only for a draw outside [0,1)) yields the JS undefined, none. -/
def randomChoice (l : List α) (u : ℚ) : Option α :=
  let idx : ℤ := jsFloor (u * l.length)
  if idx < 0 then none else l.get? idx.toNat

/-- logNormal(mean, stddev) via the Box-Muller transform; consumes two draws
and consults the transcendental oracles. -/
def logNormal (env : Env) (mean stddev : ℚ) (st : RState) : ℚ × RState :=
  let (u1, st1) := draw env st
  let (u2, st2) := draw env st1
  let normal := env.sqrt (-2 * env.log u1) * env.cos (2 * env.pi * u2)
  (env.exp (env.log mean + stddev * normal), st2)

/-- The banking-hours weight table of generateTimestamp. -/
def hourWeights : List ℚ :=
  [1, 1, 1, 1, 1, 2, 4, 8, 12, 18, 15, 12, 8, 10, 16, 12, 8, 6, 4, 3, 2, 1, 1, 1]

/-- The hour-selection loop of generateTimestamp: subtract weights until the
remainder is nonpositive; if the loop never breaks the hour keeps its initial
value 0 (conveyed by getD at the call site). -/
def pickHourGo : List ℚ → ℚ → ℕ → Option ℕ
  | [], _, _ => none
  | w :: ws, r, i => if r - w ≤ 0 then some i else pickHourGo ws (r - w) (i + 1)

/-- What generateTimestamp returns. -/
structure TimeInfo where
  timestamp : ℤ
  day : String
  hour : ℕ
deriving DecidableEq

/-- generateTimestamp(dayOffset).  The source takes new Date() (env.now),
subtracts dayOffset days, draws an hour from the weighted table and uniform
minute / second / millisecond, then calls setHours — which sets the LOCAL
time fields (offset env.tz minutes from UTC) — and renders timestamp and day
with toISOString, which is UTC. -/
def generateTimestamp (env : Env) (dayOffset : ℕ) (st : RState) :
    TimeInfo × RState :=
  let targetDay0 : ℤ := env.now - (dayOffset : ℤ) * 24 * 60 * 60 * 1000
  let total := hourWeights.foldl (· + ·) 0
  let (u, st1) := draw env st
  let hour : ℕ := (pickHourGo hourWeights (u * total) 0).getD 0
  let (um, st2) := draw env st1
  let minute : ℤ := jsFloor (um * 60)
  let (us, st3) := draw env st2
  let second : ℤ := jsFloor (us * 60)
  let (ums, st4) := draw env st3
  let ms : ℤ := jsFloor (ums * 1000)
  let local0 : ℤ := targetDay0 + env.tz * 60000
  let localMidnight : ℤ := Int.fdiv local0 86400000 * 86400000
  let localNew : ℤ :=
    localMidnight + (hour : ℤ) * 3600000 + minute * 60000 + second * 1000 + ms
  let ts : ℤ := localNew - env.tz * 60000
  ({ timestamp := ts, day := dayStrOf ts, hour := hour }, st4)

/-- calculateDuration: multiplicative jitter for network, device tier and
country, then a log-normal draw floored at 100.  Draws happen in source
order, inside the branch actually taken. -/
def calculateDuration (env : Env) (baseMs : ℚ) (_platform deviceTier networkType country : String)
    (st : RState) : ℚ × RState :=
  let m0 : ℚ := 1.0
  let (m1, st1) :=
    if networkType = "cellular" then
      let (u, st') := draw env st; (m0 * (1.5 + u * 0.8), st')
    else if networkType = "wifi" then
      let (u, st') := draw env st; (m0 * (0.8 + u * 0.4), st')
    else if networkType = "offline" then
      let (u, st') := draw env st; (m0 * (2.0 + u * 1.0), st')
    else (m0, st)
  let (m2, st2) :=
    if deviceTier = "low" then
      let (u, st') := draw env st1; (m1 * (1.4 + u * 0.4), st')
    else if deviceTier = "mid" then
      let (u, st') := draw env st1; (m1 * (1.0 + u * 0.3), st')
    else if deviceTier = "high" then
      let (u, st') := draw env st1; (m1 * (0.8 + u * 0.2), st')
    else (m1, st1)
  let (m3, st3) :=
    if country = "SS" ∨ country = "DRC" then
      let (u, st') := draw env st2; (m2 * (1.3 + u * 0.5), st')
    else if country = "UG" ∨ country = "TZ" then
      let (u, st') := draw env st2; (m2 * (1.1 + u * 0.2), st')
    else (m2, st2)
  let (ln, st4) := logNormal env (baseMs * m3) 0.6 st3
  (max 100 ((jsRound ln : ℤ) : ℚ), st4)

/-- calculateDaysSinceRelease: Math.floor of the millisecond difference over
a day. -/
def calculateDaysSinceRelease (releaseDate : ℤ) (currentDate : ℤ) : ℤ :=
  Int.fdiv (currentDate - releaseDate) (1000 * 60 * 60 * 24)

/-- shouldCrash: base probability 0.002, sequentially scaled by release
channel, device tier, and — when the version is at most 7 days old — the
exponential release spike, then compared with one fresh draw. -/
def shouldCrash (env : Env) (version : AppVersion) (deviceTier releaseChannel : String)
    (currentDate : ℤ) (st : RState) : Bool × RState :=
  let p0 : ℚ := 0.002
  let p1 : ℚ :=
    if releaseChannel = "dev" then p0 * 4
    else if releaseChannel = "uat" then p0 * 2.5
    else if releaseChannel = "pilot" then p0 * 1.8
    else p0
  let p2 : ℚ :=
    if deviceTier = "low" then p1 * 1.6
    else if deviceTier = "high" then p1 * 0.7
    else p1
  let daysSinceRelease := calculateDaysSinceRelease version.release_date currentDate
  let p3 : ℚ :=
    if daysSinceRelease ≤ 7 then
      p2 * (1 + 2 * env.exp (-(daysSinceRelease : ℚ) / 3))
    else p2
  let (u, st1) := draw env st
  (decide (u < p3), st1)

/-- The fallback AppVersion of chooseVersionForSession. -/
def fallbackVersion : AppVersion :=
  { version := "1.0.0", build_number := "1000", release_date := dateMs 2025 1 1 }

/-- The adoption weight assigned to a version by chooseVersionForSession. -/
def adoptionWeight (daysSinceRelease : ℤ) : ℚ :=
  if daysSinceRelease ≤ 3 then 0.1
  else if daysSinceRelease ≤ 7 then 0.4
  else if daysSinceRelease ≤ 14 then 0.8
  else if daysSinceRelease ≤ 30 then 1.0
  else 0.6

/-- chooseVersionForSession: table lookup with fallback on an unknown app or
channel or an empty platform list, else a weighted choice over the adoption
weights.  Consumes one draw exactly when the weighted choice is reached.  The
source guarantees the weighted choice of a nonempty list succeeds; getD
fallbackVersion records that the JS value is never undefined there. -/
def chooseVersionForSession (env : Env) (appId platform releaseChannel : String)
    (currentDate : ℤ) (st : RState) : AppVersion × RState :=
  match VERSIONS_WITH_RELEASES.lookup appId with
  | none => (fallbackVersion, st)
  | some channels =>
    match channels.lookup releaseChannel with
    | none => (fallbackVersion, st)
    | some platforms =>
      let platformVersions := (platforms.lookup platform).getD []
      if platformVersions = [] then (fallbackVersion, st)
      else
        let weightedVersions := platformVersions.map (fun v =>
          (v, adoptionWeight (calculateDaysSinceRelease v.release_date currentDate)))
        let (u, st1) := draw env st
        ((weightedChoice weightedVersions u).getD fallbackVersion, st1)

/-- String.prototype.padStart(3, "0"). -/
def padStart3 (s : String) : String :=
  if s.length < 3 then String.mk (List.replicate (3 - s.length) '0') ++ s else s

/-- String.prototype.toLowerCase, modelled characterwise. -/
def jsToLower (s : String) : String := String.mk (s.data.map Char.toLower)

/-- The JS undefined for a country lookup; unreachable since COUNTRIES is
nonempty. -/
def undefinedCountry : CountryRec := { code := "undefined", carriers := [], locales := [] }

/-- The JS undefined for a locale lookup. -/
def undefinedLocale : LocaleRec := { code := "undefined", name := "undefined" }

/-- The JS undefined for an app lookup. -/
def undefinedApp : AppRec :=
  { id := "undefined", name := "undefined", countries := [], isBranchApp := false }

/-- The JS undefined for a device lookup. -/
def undefinedDevice : DeviceRec := { model := "undefined", tier := "undefined" }

/-- The JS undefined for a crash-group lookup. -/
def undefinedCrashGroup : CrashGroupRec := { id := "undefined", type := "undefined" }

/-- The per-session context fixed before the event loop of generateSession
runs: every choice made by the session preamble, plus the configuration and
the day offset. -/
structure SessionCtx where
  cfg : Config
  dayOffset : ℕ
  sessionId : String
  currentDate : ℤ
  country : CountryRec
  localeCode : String
  isBranchSession : Bool
  app : AppRec
  platform : String
  device : DeviceRec
  releaseChannel : String
  versionInfo : AppVersion
  networkType : String
  carrier : Option String
  userId : String
  osVersion : String
  eventCount : ℕ
  hasTransaction : Bool

/-- The baseEvent object of one loop iteration of generateSession: a fresh
timestamp (four draws), a fresh uuid for the id, and the shared session
context.  Fields the source leaves undefined at this point are none; source
and event_name are placeholders that every event constructor overwrites.
Intermediate results are bound whole and read through projections, which is
the state-passing style used for the whole session synthesizer. -/
def mkBaseEvent (env : Env) (ctx : SessionCtx) (st : RState) : RawEvent × RState :=
  let ti := generateTimestamp env ctx.dayOffset st
  let ei := freshUuid env ti.2
  ({ id := "evt_" ++ ei.1
     source := ""
     timestamp := ti.1.timestamp
     day := ti.1.day
     hour := ti.1.hour
     app_id := ctx.app.id
     app_name := ctx.app.name
     platform := ctx.platform
     release_channel := ctx.releaseChannel
     app_version := ctx.versionInfo.version
     build_number := ctx.versionInfo.build_number
     os_version := ctx.osVersion
     device_model := ctx.device.model
     device_tier := ctx.device.tier
     country := ctx.country.code
     locale := ctx.localeCode
     network_type := ctx.networkType
     carrier := ctx.carrier
     session_id := ctx.sessionId
     user_pseudo_id := ctx.userId
     count := 1
     event_name := ""
     screen := none
     http_method := none
     value_num := none
     revenue_usd := 0
     duration_ms := none
     ttfb_ms := none
     payload_bytes := none
     status_code := none
     success := none
     fps_avg := none
     cpu_ms := none
     memory_mb := none
     is_crash := 0
     is_fatal := 0
     crash_group_id := none
     exception_type := none
     perf_type := none
     trace_name := none
     analytics_event := none
     foreground := none
     crash_type := none
     url_path := none
     currency := none
     transaction_type := none
     account_type := none
     branch_code := none }, ei.2)

/-- The analytics branch of the event synthesizer.  i is the loop index,
used for the forced final transaction of flagged customer sessions.  Note
the source attaches branch_code to EVERY branch analytics event (the two
draws for it are unconditional), while account_type and value_num are
attached only for customer_account_opened. -/
def mkAnalyticsEvent (env : Env) (ctx : SessionCtx) (base : RawEvent) (i : ℕ)
    (st : RState) : RawEvent × RState :=
  let screens := if ctx.isBranchSession then BRANCH_SCREENS else MOBILE_SCREENS
  if ctx.isBranchSession then
    let branchEvents := ["customer_account_opened", "transaction_processed",
      "kyc_completed", "cash_deposit", "customer_lookup"]
    let d1 := draw env st
    let analyticsEvent := (randomChoice branchEvents d1.1).getD "undefined"
    let d2 := draw env d1.2
    let screenVal := (randomChoice screens d2.1).getD "undefined"
    let acc : Option String × RState :=
      if analyticsEvent = "customer_account_opened" then
        let d := draw env d2.2
        (some ((randomChoice ACCOUNT_TYPES d.1).getD "undefined"), d.2)
      else (none, d2.2)
    let d3 := draw env acc.2
    let area := (randomChoice ["KMP", "CBD", "IND", "RES"] d3.1).getD "undefined"
    let d4 := draw env d3.2
    let seq : ℤ := jsFloor (d4.1 * 999) + 1
    let branchCode := ctx.country.code ++ "_" ++ area ++ "_" ++ padStart3 (toString seq)
    ({ base with
       source := "analytics"
       event_name := analyticsEvent
       analytics_event := some analyticsEvent
       screen := some screenVal
       account_type := acc.1
       branch_code := some branchCode
       value_num := if analyticsEvent = "customer_account_opened" then some 1 else none },
     d4.2)
  else
    let customerEvents := ["login_success", "balance_check",
      "transaction_completed", "bill_payment", "login_failed"]
    let ae : String × RState :=
      if ctx.hasTransaction ∧ i = ctx.eventCount - 1 then ("transaction_completed", st)
      else
        let d := draw env st
        ((randomChoice customerEvents d.1).getD "undefined", d.2)
    let analyticsEvent := ae.1
    let d2 := draw env ae.2
    let screenVal := (randomChoice screens d2.1).getD "undefined"
    let tx : Option String × RState :=
      if analyticsEvent = "transaction_completed" then
        let d := draw env d2.2
        (some ((randomChoice TRANSACTION_TYPES d.1).getD "undefined"), d.2)
      else (none, d2.2)
    let vn : Option ℚ × RState :=
      if analyticsEvent = "transaction_completed" then
        let v := logNormal env 25000 1.2 tx.2
        (some ((jsRound v.1 : ℤ) : ℚ), v.2)
      else (none, tx.2)
    let currency : Option String :=
      if analyticsEvent = "transaction_completed" then
        some (if ctx.country.code = "KE" then "KES"
          else if ctx.country.code = "UG" then "UGX"
          else if ctx.country.code = "TZ" then "TZS"
          else "USD")
      else none
    ({ base with
       source := "analytics"
       event_name := analyticsEvent
       analytics_event := some analyticsEvent
       screen := some screenVal
       transaction_type := tx.1
       value_num := vn.1
       currency := currency }, vn.2)

/-- The performance branch of the event synthesizer. -/
def mkPerformanceEvent (env : Env) (ctx : SessionCtx) (base : RawEvent)
    (st : RState) : RawEvent × RState :=
  let perfTypes := ["http", "screen", "trace", "app_start"]
  let d0 := draw env st
  let perfType := (randomChoice perfTypes d0.1).getD "undefined"
  let baseDuration : ℚ :=
    if perfType = "http" then 1200
    else if perfType = "screen" then 1800
    else if perfType = "trace" then 800
    else if perfType = "app_start" then 3000
    else 0
  let dur := calculateDuration env baseDuration ctx.platform
    ctx.device.tier ctx.networkType ctx.country.code d0.2
  let duration := dur.1
  let ev0 : RawEvent := { base with
    source := "performance"
    event_name := if perfType = "http" then "api_call" else perfType
    perf_type := some perfType
    duration_ms := some duration
    success := some true }
  if perfType = "http" then
    let methods := ["GET", "POST", "PUT"]
    let endpoints := if ctx.isBranchSession then BRANCH_ENDPOINTS else API_ENDPOINTS
    let de := draw env dur.2
    let isError := decide (de.1 < 0.125)
    let dm := draw env de.2
    let httpMethod := (randomChoice methods dm.1).getD "undefined"
    let dp := draw env dm.2
    let urlPath := (randomChoice endpoints dp.1).getD "undefined"
    let sc : ℤ × RState :=
      if isError then
        let d1 := draw env dp.2
        if d1.1 < 0.6 then ((400 : ℤ), d1.2)
        else
          let d2 := draw env d1.2
          (if d2.1 < 0.7 then (401 : ℤ) else 500, d2.2)
      else ((200 : ℤ), dp.2)
    let pl := logNormal env 8000 0.8 sc.2
    let ds := draw env pl.2
    let screenVal := (randomChoice (if ctx.isBranchSession then BRANCH_SCREENS
      else MOBILE_SCREENS) ds.1).getD "undefined"
    ({ ev0 with
       http_method := some httpMethod
       url_path := some urlPath
       status_code := some sc.1
       success := some (!isError)
       ttfb_ms := some ((jsRound (duration * 0.4) : ℤ) : ℚ)
       payload_bytes := some ((jsRound pl.1 : ℤ) : ℚ)
       screen := some screenVal }, ds.2)
  else if perfType = "screen" then
    let ds := draw env dur.2
    let screenVal := (randomChoice (if ctx.isBranchSession then BRANCH_SCREENS
      else MOBILE_SCREENS) ds.1).getD "undefined"
    let df := draw env ds.2
    let pen : ℚ := if ctx.device.tier = "low" then 30
      else if ctx.device.tier = "mid" then 15 else 8
    let fps : ℚ := max 20 ((jsRound (60 - pen + df.1 * 10) : ℤ) : ℚ)
    ({ ev0 with screen := some screenVal, fps_avg := some fps }, df.2)
  else if perfType = "trace" then
    let traces := if ctx.isBranchSession then
        ["kyc_verification", "document_processing", "account_validation", "cash_counting"]
      else
        ["biometric_auth", "transaction_encryption", "balance_calculation", "risk_assessment"]
    let dt := draw env dur.2
    let traceName := "banking:" ++ (randomChoice traces dt.1).getD "undefined"
    let mem := logNormal env 80 0.4 dt.2
    ({ ev0 with
       trace_name := some traceName
       cpu_ms := some ((jsRound (duration * 0.8) : ℤ) : ℚ)
       memory_mb := some ((jsRound mem.1 : ℤ) : ℚ) }, mem.2)
  else (ev0, dur.2)

/-- The crash branch of the event synthesizer. -/
def mkCrashEvent (env : Env) (ctx : SessionCtx) (base : RawEvent)
    (st : RState) : RawEvent × RState :=
  let dg := draw env st
  let crashGroup := (weightedChoice CRASH_GROUPS dg.1).getD undefinedCrashGroup
  let df := draw env dg.2
  let isFatal := decide (df.1 < 0.12)
  let crashTypes : List String :=
    if ctx.platform = "android" then ["fatal", "nonfatal", "anr"] else ["fatal", "nonfatal"]
  let ct : String × RState :=
    if isFatal then ("fatal", df.2)
    else
      let d := draw env df.2
      ((randomChoice (crashTypes.filter (fun t => t != "fatal")) d.1).getD "undefined", d.2)
  let dfg := draw env ct.2
  ({ base with
     source := "crash"
     event_name := "crash"
     is_crash := 1
     is_fatal := if isFatal then 1 else 0
     crash_type := some ct.1
     exception_type := some crashGroup.type
     crash_group_id := some crashGroup.id
     foreground := some (decide (dfg.1 < 0.9)) }, dfg.2)

/-- The event loop of generateSession: fuel counts remaining iterations, i is
the current index.  Each slot takes a base event, evaluates the crash
decision, else splits analytics against performance by the configured
ratios. -/
def eventLoop (env : Env) (ctx : SessionCtx) : ℕ → ℕ → RState → List RawEvent × RState
  | 0, _, st => ([], st)
  | fuel + 1, i, st =>
    let b := mkBaseEvent env ctx st
    let cr := shouldCrash env ctx.versionInfo ctx.device.tier
      ctx.releaseChannel ctx.currentDate b.2
    let ev : RawEvent × RState :=
      if cr.1 then mkCrashEvent env ctx b.1 cr.2
      else
        let d := draw env cr.2
        if d.1 < ctx.cfg.ratioAnalytics / (ctx.cfg.ratioAnalytics + ctx.cfg.ratioPerformance) then
          mkAnalyticsEvent env ctx b.1 i d.2
        else mkPerformanceEvent env ctx b.1 d.2
    let rest := eventLoop env ctx fuel (i + 1) ev.2
    (ev.1 :: rest.1, rest.2)

/-- The part of generateSession after the empty-apps early exit: choose app,
platform, device, release channel, version, network, carrier, user, OS
version, event count and the transaction flag, then run the event loop. -/
def sessionRest (cfg : Config) (env : Env) (dayOffset : ℕ) (sessionId : String)
    (currentDate : ℤ) (country : CountryRec) (locale : LocaleRec)
    (isBranchSession : Bool) (availableApps : List AppRec) (st : RState) :
    List RawEvent × RState :=
  let da := draw env st
  let app := (randomChoice availableApps da.1).getD undefinedApp
  let pf : String × RState :=
    if isBranchSession then
      let d := draw env da.2
      if d.1 < 0.8 then ("web", d.2)
      else
        let d2 := draw env d.2
        ((randomChoice ["ios", "android", "web"] d2.1).getD "undefined", d2.2)
    else
      let d2 := draw env da.2
      ((randomChoice ["ios", "android", "web"] d2.1).getD "undefined", d2.2)
  let platform := pf.1
  let dd := draw env pf.2
  let device := (weightedChoice (DEVICES platform) dd.1).getD undefinedDevice
  let rc : String × RState :=
    let d1 := draw env dd.2
    if d1.1 < 0.7 then ("prod", d1.2)
    else
      let d2 := draw env d1.2
      if d2.1 < 0.6 then ("pilot", d2.2)
      else
        let d3 := draw env d2.2
        (if d3.1 < 0.5 then "uat" else "dev", d3.2)
  let releaseChannel := rc.1
  let vi := chooseVersionForSession env app.id platform releaseChannel currentDate rc.2
  let versionInfo := vi.1
  let nt : String × RState :=
    let d1 := draw env vi.2
    if d1.1 < 0.4 then ("wifi", d1.2)
    else
      let d2 := draw env d1.2
      (if d2.1 < 0.9 then "cellular" else "offline", d2.2)
  let networkType := nt.1
  let ca : Option String × RState :=
    if networkType = "cellular" then
      let d := draw env nt.2
      (randomChoice country.carriers d.1, d.2)
    else ((none : Option String), nt.2)
  let du := draw env ca.2
  let userId := "u_" ++ jsToLower country.code ++ "_" ++
    (if isBranchSession then "staff" else "customer") ++ "_" ++
    toString (jsFloor (du.1 * 10000))
  let ov : String × RState :=
    if platform = "ios" then
      let d1 := draw env du.2
      let d2 := draw env d1.2
      ("iOS " ++ toString (16 + jsFloor (d1.1 * 2)) ++ "." ++ toString (jsFloor (d2.1 * 6)), d2.2)
    else if platform = "android" then
      let d1 := draw env du.2
      ("Android " ++ toString (11 + jsFloor (d1.1 * 3)), d1.2)
    else ("Web", du.2)
  let dc := draw env ov.2
  let eventCount : ℕ :=
    (max 2 (jsRound (cfg.EVENTS_PER_SESSION_AVG + (dc.1 - 0.5) * 4))).toNat
  let ht : Bool × RState :=
    if isBranchSession then (false, dc.2)
    else
      let d := draw env dc.2
      (decide (d.1 < 0.3), d.2)
  let ctx : SessionCtx :=
    { cfg := cfg, dayOffset := dayOffset, sessionId := sessionId,
      currentDate := currentDate, country := country, localeCode := locale.code,
      isBranchSession := isBranchSession, app := app, platform := platform,
      device := device, releaseChannel := releaseChannel,
      versionInfo := versionInfo, networkType := networkType,
      carrier := ca.1, userId := userId, osVersion := ov.1,
      eventCount := eventCount, hasTransaction := ht.1 }
  eventLoop env ctx eventCount 0 ht.2

/-- The branch-vs-customer filtering of the app catalog (the two branches of
the source's reassignment of availableApps). -/
def branchFilteredApps (isB : Bool) (apps0 : List AppRec) : List AppRec :=
  if isB then apps0.filter (fun a => a.isBranchApp)
  else apps0.filter (fun a => !a.isBranchApp)

/-- generateSession(dayOffset): session id, simulated current date (dayOffset
days before env.now; a fixed-offset no-DST clock model, so setDate is an
exact day subtraction), country, locale, branch-vs-customer decision, app
catalog filtering with the empty early exit, then sessionRest. -/
def generateSession (cfg : Config) (env : Env) (dayOffset : ℕ) (st : RState) :
    List RawEvent × RState :=
  let su := freshUuid env st
  let sessionId := "s_banking_" ++ su.1.take 4
  let currentDate : ℤ := env.now - (dayOffset : ℤ) * 86400000
  let dc := draw env su.2
  let country := (weightedChoice COUNTRIES dc.1).getD undefinedCountry
  let dl := draw env dc.2
  let locale := (weightedChoice country.locales dl.1).getD undefinedLocale
  let availableApps0 := APPS.filter (fun a => a.countries.contains country.code)
  let db := draw env dl.2
  let isBranchSession := decide (db.1 < 0.15)
  let availableApps := branchFilteredApps isBranchSession availableApps0
  if availableApps.isEmpty then ([], db.2)
  else sessionRest cfg env dayOffset sessionId currentDate country locale
    isBranchSession availableApps db.2

/-- One step of the Fisher-Yates shuffle of generateRawEvents, iterating the
index downward; the loop stops when the index reaches 0.  Math.random() is in
[0,1) so the drawn index j = floor(u*(i+1)) is always in range; an
out-of-range oracle value is modelled as a no-swap. -/
def shuffleStep (env : Env) : ℕ → Array RawEvent → RState → Array RawEvent × RState
  | 0, arr, st => (arr, st)
  | i + 1, arr, st =>
    let (u, st1) := draw env st
    let j : ℤ := jsFloor (u * ((i + 1 : ℕ) + 1 : ℚ))
    let arr' :=
      if h : i + 1 < arr.size ∧ 0 ≤ j ∧ j.toNat < arr.size then
        arr.swap ⟨i + 1, h.1⟩ ⟨j.toNat, h.2.2⟩
      else arr
    shuffleStep env i arr' st1

/-- The inner sessions loop of one day of generateRawEvents. -/
def sessionsLoop (cfg : Config) (env : Env) (dayOffset : ℕ) :
    ℕ → RState → List RawEvent × RState
  | 0, st => ([], st)
  | n + 1, st =>
    let (evs, st1) := generateSession cfg env dayOffset st
    let (rest, st2) := sessionsLoop cfg env dayOffset n st1
    (evs ++ rest, st2)

/-- The day loop of generateRawEvents: weekend reduction, a jittered session
count, and the sessions of that day, oldest day offset 0 first. -/
def daysLoop (cfg : Config) (env : Env) (sessionsPerDay : ℤ) :
    ℕ → ℕ → RState → List RawEvent × RState
  | 0, _, st => ([], st)
  | fuel + 1, day, st =>
    let isWeekend := day % 7 = 5 ∨ day % 7 = 6
    let weekendMultiplier : ℚ := if isWeekend then 0.3 else 1.0
    let (u, st1) := draw env st
    let dailySessions : ℤ :=
      jsRound ((sessionsPerDay : ℚ) * weekendMultiplier * (0.8 + u * 0.4))
    let (evs, st2) := sessionsLoop cfg env day dailySessions.toNat st1
    let (rest, st3) := daysLoop cfg env sessionsPerDay fuel (day + 1) st2
    (evs ++ rest, st3)

/-- generateRawEvents: scale the per-day session baseline by the event
target, run the date range, Fisher-Yates shuffle, then truncate to the
target. -/
def generateRawEvents (cfg : Config) (env : Env) (st : RState) :
    List RawEvent × RState :=
  let sessionsPerDay : ℤ :=
    jsRound ((cfg.SESSIONS_PER_DAY : ℚ) * ((cfg.TOTAL_EVENTS_TARGET : ℚ) / 45000))
  let (events, st1) := daysLoop cfg env sessionsPerDay cfg.DATE_RANGE_DAYS 0 st
  let (shuffled, st2) := shuffleStep env (events.length - 1) events.toArray st1
  (shuffled.toList.take cfg.TOTAL_EVENTS_TARGET, st2)

/-- The per-key accumulator of generateDailyRollups: the pushed events (in
encounter order) and the distinct users and sessions (a JS Set modelled as
its insertion-ordered list of distinct members). -/
structure RollupGroup where
  events : List RawEvent
  users : List String
  sessions : List String
deriving DecidableEq

/-- Set.prototype.add. -/
def addToSet (l : List String) (x : String) : List String :=
  if l.contains x then l else l ++ [x]

/-- The derived event_group dimension of an event.  An absent
analytics_event renders as the string undefined inside the template
literal. -/
def eventGroupOf (e : RawEvent) : String :=
  if e.source = "performance" then "performance:" ++ e.event_name
  else if e.source = "analytics" then "analytics:" ++ e.analytics_event.getD "undefined"
  else "crash:" ++ (if e.is_fatal ≠ 0 then "fatal" else "nonfatal")

/-- The 9-dimension composite rollup key of an event, joined with pipes. -/
def rollupKey (e : RawEvent) : String :=
  e.day ++ "|" ++ e.source ++ "|" ++ e.platform ++ "|" ++ e.app_id ++ "|" ++
  e.app_version ++ "|" ++ e.release_channel ++ "|" ++ e.country ++ "|" ++
  e.device_tier ++ "|" ++ eventGroupOf e

/-- Insert one event into the keyed accumulator map (a JS Map modelled as an
insertion-ordered association list): a missing key is appended with a fresh
group, an existing key has the event pushed and the user and session
added. -/
def insertEvent (k : String) (e : RawEvent) :
    List (String × RollupGroup) → List (String × RollupGroup)
  | [] => [(k, { events := [e], users := [e.user_pseudo_id], sessions := [e.session_id] })]
  | (k', g) :: rest =>
    if k' = k then
      (k', { events := g.events ++ [e],
             users := addToSet g.users e.user_pseudo_id,
             sessions := addToSet g.sessions e.session_id }) :: rest
    else (k', g) :: insertEvent k e rest

/-- The grouping pass of generateDailyRollups. -/
def rollupFold : List RawEvent → List (String × RollupGroup) → List (String × RollupGroup)
  | [], m => m
  | e :: rest, m => rollupFold rest (insertEvent (rollupKey e) e m)

/-- JS String.prototype.split with separator the pipe character: split at
every occurrence.  Modelled at the character-list level with the structurally
recursive List.splitOnP; the lemma splitPipe_eq_split below checks this
agrees with String.split. -/
def splitPipe (s : String) : List String :=
  (List.splitOnP (fun c => c == '|') s.data).map (fun l => String.mk l)

/-- Sanity bridge: splitPipe is String.split at the pipe predicate. -/
theorem splitPipe_eq_split (s : String) :
    splitPipe s = s.split (fun c => c == '|') :=
  (String.split_of_valid s _).symm

/-- Finalize one group into a DailyRollup.  The source splits the key back on
the pipe character and destructures the first nine parts (a part past the end
would be the JS undefined); Array.prototype.sort with the numeric comparator
yields the ascending arrangement, modelled by insertion sort.  JS number
truthiness makes an absent status_code (and a zero one) falsy. -/
def mkRollup (k : String) (g : RollupGroup) : DailyRollup :=
  let parts := splitPipe k
  let durations := List.insertionSort (· ≤ ·) (g.events.filterMap (fun e => e.duration_ms))
  let httpEvents := g.events.filter (fun e => decide (e.status_code.getD 0 ≠ 0))
  let httpErrors := httpEvents.filter (fun e => decide (e.status_code.getD 0 ≥ 400))
  let n := durations.length
  { day := parts.getD 0 "undefined"
    source := parts.getD 1 "undefined"
    platform := parts.getD 2 "undefined"
    app_id := parts.getD 3 "undefined"
    app_version := parts.getD 4 "undefined"
    release_channel := parts.getD 5 "undefined"
    country := parts.getD 6 "undefined"
    device_tier := parts.getD 7 "undefined"
    event_group := parts.getD 8 "undefined"
    events_count := g.events.length
    users_count := g.users.length
    sessions_count := g.sessions.length
    avg_duration_ms :=
      if 0 < n then some ((jsRound (durations.sum / n) : ℤ) : ℚ) else none
    p50_duration_ms :=
      if 0 < n then durations.get? (jsFloor ((n : ℚ) * 0.5)).toNat else none
    p90_duration_ms :=
      if 0 < n then durations.get? (jsFloor ((n : ℚ) * 0.9)).toNat else none
    p99_duration_ms :=
      if 0 < n then durations.get? (jsFloor ((n : ℚ) * 0.99)).toNat else none
    http_error_rate :=
      if 0 < httpEvents.length then
        some ((httpErrors.length : ℚ) / httpEvents.length)
      else none
    crash_rate_per_1k_sessions :=
      if parts.getD 1 "undefined" = "crash" then
        some ((g.events.length : ℚ) / g.sessions.length * 1000)
      else none
    revenue_usd := 0
    purchase_count := 0 }

/-- generateDailyRollups: group all raw events by the composite key, then
finalize each group in map insertion order. -/
def generateDailyRollups (rawEvents : List RawEvent) : List DailyRollup :=
  (rollupFold rawEvents []).map (fun p => mkRollup p.1 p.2)

/-- JS String.prototype.includes: substring containment, by scanning the
character list. -/
def containsSeq (needle : List Char) : List Char → Bool
  | [] => needle.isEmpty
  | c :: rest => List.isPrefixOf needle (c :: rest) || containsSeq needle rest

/-- String.prototype.includes on strings. -/
def strIncludes (s needle : String) : Bool := containsSeq needle.data s.data

/-- Set size: number of distinct members (insertion-order Set model). -/
def jsSetSize (l : List String) : ℕ := (l.foldl addToSet []).length

/-- The diagnostic texts of the validator interpolate numbers with
toFixed; the model renders the exact rational with toString instead, which
preserves which messages are appended and their multiplicity (all any claim
refers to), not the exact digit strings. -/
def ratStr (q : ℚ) : String := toString q

/-- The toFixed rendering of a ratio that is the JS NaN (a count of zero
makes the source read an absent record field, and NaN propagates). -/
def optRatStr (q : Option ℚ) : String :=
  match q with
  | none => "NaN"
  | some r => ratStr r

/-- Errors contributed for one sampled event by validateSchema.  The eight
required fields are non-optional fields of the RawEvent structure, so the
required-field branch of the source can never push (it checks presence of
fields the type always carries) and contributes nothing; hour below zero
cannot fire for a natural number.  JS falsiness of numbers (absent or zero)
and strings (absent or empty) is spelled out in the conditions. -/
def schemaEventErrors (e : RawEvent) : List String :=
  (if e.hour > 23 then
    ["Event " ++ e.id ++ " invalid hour: " ++ toString e.hour] else []) ++
  (if e.count ≠ 1 then
    ["Event " ++ e.id ++ " count should be 1, got: " ++ toString e.count] else []) ++
  (if e.source = "crash" ∧ e.is_crash ≠ 1 then
    ["Crash event " ++ e.id ++ " has is_crash !== 1"] else []) ++
  (if e.source = "performance" ∧ e.duration_ms.getD 0 = 0 then
    ["Performance event " ++ e.id ++ " missing duration_ms"] else []) ++
  (if e.source = "analytics" ∧ e.analytics_event.getD "" = "" then
    ["Analytics event " ++ e.id ++ " missing analytics_event"] else []) ++
  (if e.perf_type = some "http" then
    (if e.status_code.getD 0 = 0 ∨ e.http_method.getD "" = "" ∨ e.url_path.getD "" = "" then
      ["HTTP event " ++ e.id ++ " missing HTTP fields"] else []) ++
    (if e.status_code.getD 0 ≥ 400 ∧ e.success = some true then
      ["HTTP event " ++ e.id ++ " has error status but success=true"] else [])
  else [])

/-- validateSchema: errors over the first 1000 events; it pushes no
warnings. -/
def validateSchema (rawEvents : List RawEvent) : List String :=
  (rawEvents.take 1000).flatMap schemaEventErrors

/-- validateBusinessLogic: returns (errors, warnings).  The crash-rate
division behaves like the source for an empty corpus: 0/0 is NaN in JS and
its comparison with 0.1 is false; division by zero is 0 here and the
comparison is false as well. -/
def validateBusinessLogic (rawEvents : List RawEvent) : List String × List String :=
  let appCountryViolations := rawEvents.filter (fun e =>
    match APPS.find? (fun a => a.id == e.app_id) with
    | some app => !(app.countries.contains e.country)
    | none => false)
  let errs :=
    if appCountryViolations.length > 0 then
      [toString appCountryViolations.length ++ " events have app-country mismatches"]
    else []
  let devVersions := rawEvents.filter (fun e =>
    e.release_channel == "dev" && !(strIncludes e.app_version "dev"))
  let w1 :=
    if devVersions.length > 0 then
      [toString devVersions.length ++ " dev channel events without dev in version"]
    else []
  let totalSessions := jsSetSize (rawEvents.map (fun e => e.session_id))
  let crashingSessions := jsSetSize
    ((rawEvents.filter (fun e => decide (e.is_crash = 1))).map (fun e => e.session_id))
  let crashRate : ℚ := (crashingSessions : ℚ) / totalSessions
  let w2 :=
    if crashRate > 0.1 then
      ["High overall crash rate: " ++ ratStr (crashRate * 100) ++ "%"]
    else []
  (errs, w1 ++ w2)

/-- Number of raw events with the given source. -/
def sourceCount (rawEvents : List RawEvent) (src : String) : ℕ :=
  (rawEvents.filter (fun e => e.source == src)).length

/-- A realized source ratio.  The source reads its per-source count out of a
reduce-built record, so a source that never occurs reads the absent field
(undefined) and the ratio is NaN; that is modelled as none, and every
comparison against none is false, as every JS comparison with NaN is. -/
def realizedRatio (count total : ℕ) : Option ℚ :=
  if count = 0 then none else some ((count : ℚ) / total)

/-- A realized country ratio: the count defaults to 0 via the or-zero
guard, so the ratio is NaN exactly when the corpus is empty. -/
def countryRatio (count total : ℕ) : Option ℚ :=
  if total = 0 then none else some ((count : ℚ) / total)

/-- validateDistributions: returns (errors, warnings).  Note the source
compares the realized CRASH ratio against the configured PERFORMANCE ratio in
the condition that guards the performance-ratio warning (its message renders
the performance ratio). -/
def validateDistributions (cfg : Config) (rawEvents : List RawEvent) :
    List String × List String :=
  let total := rawEvents.length
  let analyticsRatio := realizedRatio (sourceCount rawEvents "analytics") total
  let performanceRatio := realizedRatio (sourceCount rawEvents "performance") total
  let crashRatio := realizedRatio (sourceCount rawEvents "crash") total
  let w1 :=
    match analyticsRatio with
    | none => []
    | some r =>
      if |r - cfg.ratioAnalytics| > 0.1 then
        ["Analytics ratio " ++ ratStr r ++ " differs from expected " ++
          ratStr cfg.ratioAnalytics]
      else []
  let w2 :=
    match crashRatio with
    | none => []
    | some r =>
      if |r - cfg.ratioPerformance| > 0.1 then
        ["Performance ratio " ++ optRatStr performanceRatio ++
          " differs from expected " ++ ratStr cfg.ratioPerformance]
      else []
  let w3 :=
    match crashRatio with
    | none => []
    | some r =>
      if |r - cfg.ratioCrash| > 0.02 then
        ["Crash ratio " ++ ratStr r ++ " differs from expected " ++
          ratStr cfg.ratioCrash]
      else []
  let wc := COUNTRIES.flatMap (fun cw =>
    let cnt := (rawEvents.filter (fun e => e.country == cw.1.code)).length
    match countryRatio cnt total with
    | none => []
    | some r =>
      if |r - cw.2| > 0.1 then
        ["Country " ++ cw.1.code ++ " ratio " ++ ratStr r ++
          " differs from expected " ++ ratStr cw.2]
      else [])
  let localeKeys := (rawEvents.map (fun e => e.locale)).foldl addToSet []
  let validLocales := ["EN", "SW", "RW", "FR", "ZH"]
  let invalidLocales := localeKeys.filter (fun l => !(validLocales.contains l))
  let errs :=
    if invalidLocales.length > 0 then
      ["Invalid locales found: " ++ String.intercalate ", " invalidLocales]
    else []
  (errs, w1 ++ w2 ++ w3 ++ wc)

/-- validateTimeSeries: warnings only.  On an empty corpus Math.min of no
arguments is Infinity and the span comparison is false, so no span warning
is possible; the model matches on emptiness. -/
def validateTimeSeries (cfg : Config) (rawEvents : List RawEvent) : List String :=
  let w1 :=
    match rawEvents with
    | [] => []
    | e :: _ =>
      let ts := rawEvents.map (fun x => x.timestamp)
      let minD := ts.foldl min e.timestamp
      let maxD := ts.foldl max e.timestamp
      let daySpan : ℚ := ((maxD - minD : ℤ) : ℚ) / (1000 * 60 * 60 * 24)
      if daySpan > (cfg.DATE_RANGE_DAYS : ℚ) + 5 then
        ["Date range " ++ ratStr daySpan ++ " days exceeds expected " ++
          toString cfg.DATE_RANGE_DAYS]
      else []
  let timeInconsistencies := rawEvents.filter (fun e =>
    decide (utcHourOf e.timestamp ≠ e.hour) || decide (dayStrOf e.timestamp ≠ e.day))
  let w2 :=
    if timeInconsistencies.length > 0 then
      [toString timeInconsistencies.length ++
        " events have timestamp-day-hour inconsistencies"]
    else []
  let dowCount := fun (d : ℕ) =>
    (rawEvents.filter (fun e => utcDowOf e.timestamp == d)).length
  let weekdayAvg : ℚ :=
    ((dowCount 1 + dowCount 2 + dowCount 3 + dowCount 4 + dowCount 5 : ℕ) : ℚ) / 5
  let weekendAvg : ℚ := ((dowCount 0 + dowCount 6 : ℕ) : ℚ) / 2
  let w3 :=
    if weekendAvg > weekdayAvg * 0.8 then
      ["Weekend activity too high: " ++ ratStr weekendAvg ++ " vs weekday " ++
        ratStr weekdayAvg]
    else []
  w1 ++ w2 ++ w3

/-- validateRollupAccuracy: warnings only, over the first ten rollups; the
recomputation filters on the eight plain dimensions (not event_group). -/
def validateRollupAccuracy (rawEvents : List RawEvent)
    (dailyRollups : List DailyRollup) : List String :=
  (dailyRollups.take 10).flatMap (fun rollup =>
    let matchingEvents := rawEvents.filter (fun e =>
      e.day == rollup.day && e.source == rollup.source &&
      e.platform == rollup.platform && e.app_id == rollup.app_id &&
      e.app_version == rollup.app_version &&
      e.release_channel == rollup.release_channel &&
      e.country == rollup.country && e.device_tier == rollup.device_tier)
    let w1 :=
      if matchingEvents.length ≠ rollup.events_count then
        ["Rollup events_count mismatch: expected " ++ toString matchingEvents.length ++
          ", got " ++ toString rollup.events_count]
      else []
    let uniqueUsers := jsSetSize (matchingEvents.map (fun e => e.user_pseudo_id))
    let uniqueSessions := jsSetSize (matchingEvents.map (fun e => e.session_id))
    let w2 :=
      if uniqueUsers ≠ rollup.users_count then
        ["Rollup users_count mismatch: expected " ++ toString uniqueUsers ++
          ", got " ++ toString rollup.users_count]
      else []
    let w3 :=
      if uniqueSessions ≠ rollup.sessions_count then
        ["Rollup sessions_count mismatch: expected " ++ toString uniqueSessions ++
          ", got " ++ toString rollup.sessions_count]
      else []
    w1 ++ w2 ++ w3)

/-- Append an event to the list at a key of an insertion-ordered association
list (the reduce-built Record of validateReleaseLogic). -/
def assocPush (k : String) (e : RawEvent) :
    List (String × List RawEvent) → List (String × List RawEvent)
  | [] => [(k, [e])]
  | (k', l) :: rest =>
    if k' = k then (k', l ++ [e]) :: rest else (k', l) :: assocPush k e rest

/-- Group events by a string key, preserving first-encounter key order as
Object.entries does for string keys. -/
def groupEvents (f : RawEvent → String) (rawEvents : List RawEvent) :
    List (String × List RawEvent) :=
  rawEvents.foldl (fun m e => assocPush (f e) e m) []

/-- validateReleaseLogic: warnings only. -/
def validateReleaseLogic (cfg : Config) (rawEvents : List RawEvent) : List String :=
  let versionGroups := groupEvents
    (fun e => e.app_id ++ "-" ++ e.platform ++ "-" ++ e.release_channel) rawEvents
  let releaseAdoptionIssues := versionGroups.flatMap (fun kg =>
    let versionStats := groupEvents (fun e => e.app_version) kg.2
    versionStats.flatMap (fun vg =>
      if strIncludes vg.1 "dev" || strIncludes vg.1 "uat" then
        let avgEventsPerDay : ℚ := (vg.2.length : ℚ) / cfg.DATE_RANGE_DAYS
        if avgEventsPerDay > (kg.2.length : ℚ) / cfg.DATE_RANGE_DAYS * 0.3 then
          [kg.1 ++ " version " ++ vg.1 ++ " has unexpectedly high adoption"]
        else []
      else []))
  if releaseAdoptionIssues.length > 0 then
    ["Release adoption issues: " ++ String.intercalate "; " releaseAdoptionIssues]
  else []

/-- validateAll: run the six checks in source order, collecting their pushes
into the shared error and warning lists, then finalize isValid as the
emptiness of the error list. -/
def validateAll (cfg : Config) (rawEvents : List RawEvent)
    (dailyRollups : List DailyRollup) : ValidationResult :=
  let schemaErrs := validateSchema rawEvents
  let bl := validateBusinessLogic rawEvents
  let dist := validateDistributions cfg rawEvents
  let tsWarns := validateTimeSeries cfg rawEvents
  let raWarns := validateRollupAccuracy rawEvents dailyRollups
  let rlWarns := validateReleaseLogic cfg rawEvents
  let errors := schemaErrs ++ bl.1 ++ dist.1
  let warnings := bl.2 ++ dist.2 ++ tsWarns ++ raWarns ++ rlWarns
  { isValid := errors.isEmpty, errors := errors, warnings := warnings }

/-!
Theorems.  Each claim of the specification review is settled by one theorem
below, with supporting lemmas and concrete runs of the embedded program.
-/

/-- C9: for every pair of input lists, the ValidationResult returned by
validateAll has isValid = true exactly when its errors list is empty; the
flag is computed from the fully collected error list after all six checks
have contributed. -/
theorem validateAll_isValid_iff_no_errors (cfg : Config) (rawEvents : List RawEvent)
    (dailyRollups : List DailyRollup) :
    (validateAll cfg rawEvents dailyRollups).isValid = true ↔
      (validateAll cfg rawEvents dailyRollups).errors = [] := by
  simp [validateAll, List.isEmpty_iff]

/-- The cumulative-subtraction loop yields some element whenever the original
item list is nonempty. -/
theorem weightedGo_isSome {α : Type _} (orig : List (α × ℚ)) (h : orig ≠ []) :
    ∀ (l : List (α × ℚ)) (r : ℚ), (weightedGo orig l r).isSome = true := by
  intro l
  induction l with
  | nil =>
    intro r
    have hs : orig.getLast?.isSome = true := List.getLast?_isSome.mpr h
    obtain ⟨p, hp⟩ := Option.isSome_iff_exists.mp hs
    simp [weightedGo, hp]
  | cons hd tl ih =>
    intro r
    obtain ⟨a, w⟩ := hd
    simp only [weightedGo]
    split
    · rfl
    · exact ih _

/-- Whatever the loop returns is drawn from the original list or from the
suffix still being scanned. -/
theorem weightedGo_mem {α : Type _} (orig : List (α × ℚ)) :
    ∀ (l : List (α × ℚ)) (r : ℚ) (a : α), weightedGo orig l r = some a →
      a ∈ orig.map Prod.fst ∨ a ∈ l.map Prod.fst := by
  intro l
  induction l with
  | nil =>
    intro r a h
    left
    simp only [weightedGo] at h
    obtain ⟨p, hp, rfl⟩ := Option.map_eq_some'.mp h
    obtain ⟨hne, heq⟩ := List.mem_getLast?_eq_getLast hp
    exact heq ▸ List.mem_map_of_mem Prod.fst (List.getLast_mem hne)
  | cons hd tl ih =>
    intro r a h
    obtain ⟨b, w⟩ := hd
    simp only [weightedGo] at h
    split at h
    · right
      simp [← Option.some.injEq _ _ |>.mp h]
    · rcases ih _ _ h with h' | h'
      · exact Or.inl h'
      · right
        simpa using Or.inr (by simpa using h')

/-- C7: on a nonempty item list with nonnegative weights and a scaled draw in
[0, total weight), weightedChoice returns some element of the list: the
cumulative subtraction either stops inside the list or the final fall-back
returns the last item, so no out-of-range access and no exception can
occur. -/
theorem weightedChoice_never_raises {α : Type _} (items : List (α × ℚ)) (u : ℚ)
    (hne : items ≠ []) (hw : ∀ p ∈ items, 0 ≤ p.2)
    (hu0 : 0 ≤ u * totalWeight items) (hu1 : u * totalWeight items < totalWeight items) :
    ∃ a, weightedChoice items u = some a ∧ a ∈ items.map Prod.fst := by
  have hs := weightedGo_isSome items hne items (u * totalWeight items)
  obtain ⟨a, ha⟩ := Option.isSome_iff_exists.mp hs
  refine ⟨a, ha, ?_⟩
  rcases weightedGo_mem items items _ a ha with h | h <;> exact h

/-- Witness for C7 at the two-item list of the specification's example with
the draw landing mid-range. -/
theorem weightedChoice_never_raises_witness :
    ∃ a, weightedChoice [("a", (1 : ℚ)), ("b", 3)] (1/2) = some a ∧
      a ∈ ([("a", (1 : ℚ)), ("b", 3)]).map Prod.fst :=
  weightedChoice_never_raises [("a", (1 : ℚ)), ("b", 3)] (1/2)
    (by decide) (by decide) (by decide) (by decide)

/-- Modelled from the spec (refinement target for C6): the closed-form crash
probability — base 0.002 times a channel factor (dev 4, uat 2.5, pilot 1.8,
prod and anything else 1), times a device-tier factor (low 1.6, high 0.7, mid
and anything else 1), times the release-spike factor 1 + 2*e^(-days/3)
exactly when days_since_release is at most 7, with no clamping of the
product. -/
def crashProbabilitySpec (mexp : ℚ → ℚ) (releaseChannel deviceTier : String)
    (daysSinceRelease : ℤ) : ℚ :=
  0.002 *
  (if releaseChannel = "dev" then 4
   else if releaseChannel = "uat" then 2.5
   else if releaseChannel = "pilot" then 1.8
   else 1) *
  (if deviceTier = "low" then 1.6
   else if deviceTier = "high" then 0.7
   else 1) *
  (if daysSinceRelease ≤ 7 then 1 + 2 * mexp (-(daysSinceRelease : ℚ) / 3) else 1)

/-- C6: the sequential multiplicative construction of shouldCrash computes
exactly the specification's product, and the one fresh uniform draw is
compared against that unclamped probability. -/
theorem shouldCrash_matches_spec (env : Env) (v : AppVersion) (deviceTier releaseChannel : String)
    (currentDate : ℤ) (st : RState) :
    shouldCrash env v deviceTier releaseChannel currentDate st =
      (decide (env.stream st.1 <
        crashProbabilitySpec env.exp releaseChannel deviceTier
          (calculateDaysSinceRelease v.release_date currentDate)),
       (st.1 + 1, st.2)) := by
  simp only [shouldCrash, crashProbabilitySpec, draw]
  refine Prod.ext ?_ rfl
  simp only [decide_eq_decide]
  constructor <;> intro h <;> (refine lt_of_lt_of_eq h ?_) <;> split_ifs <;> ring

/-- The concrete run for C1: a host at UTC+3 (for example Africa/Nairobi, 180
minutes east), new Date() at UTC midnight of 2025-10-11, and a draw stream
whose first value lands the weighted hour selection on hour 10 (the first ten
weights sum to 49 and the total is 148, so a scaled draw of 50 stops at index
10), with minute, second and millisecond draws of zero. -/
def c1Env : Env :=
  { stream := fun n => List.getD [(50/148 : ℚ), 0, 0, 0] n 0
    uuid := fun _ => "u"
    now := dateMs 2025 10 11
    tz := 180
    exp := fun _ => 0
    log := fun _ => 0
    cos := fun _ => 0
    sqrt := fun _ => 0
    pi := 0 }

/-- C1, divergence run: generateTimestamp sets the drawn hour with setHours,
which works in LOCAL time, but renders timestamp and day with toISOString,
which is UTC.  On a UTC+3 host the returned hour field is 10 while the UTC
hour of the returned timestamp is 7, so the hour field is NOT derivable from
the timestamp by UTC truncation; the day field, taken from the same
toISOString call, does agree with the timestamp. -/
theorem generateTimestamp_hour_not_utc_hour :
    (generateTimestamp c1Env 0 (0, 0)).1.hour = 10 ∧
    utcHourOf (generateTimestamp c1Env 0 (0, 0)).1.timestamp = 7 ∧
    (generateTimestamp c1Env 0 (0, 0)).1.day =
      dayStrOf (generateTimestamp c1Env 0 (0, 0)).1.timestamp :=
  ⟨by decide, by decide, rfl⟩

/-- The Set model built by folding additions over a list of members. -/
def jsSetList (l : List String) : List String := l.foldl addToSet []

/-- The group that the grouping pass associates with key k after processing
a list of events: the events whose key is k in order, and the insertion-order
distinct lists of their users and sessions. -/
def groupOf (processed : List RawEvent) (k : String) : RollupGroup :=
  let evs := processed.filter (fun e => decide (rollupKey e = k))
  { events := evs
    users := jsSetList (evs.map (fun e => e.user_pseudo_id))
    sessions := jsSetList (evs.map (fun e => e.session_id)) }

/-- Keys after one insertion: an existing key leaves the key list unchanged,
a new key is appended. -/
theorem insertEvent_keys (k : String) (e : RawEvent) :
    ∀ m : List (String × RollupGroup),
      (insertEvent k e m).map Prod.fst =
        if k ∈ m.map Prod.fst then m.map Prod.fst else m.map Prod.fst ++ [k] := by
  intro m
  induction m with
  | nil => simp [insertEvent]
  | cons hd rest ih =>
    obtain ⟨k', g⟩ := hd
    by_cases h : k' = k
    · subst h
      simp [insertEvent]
    · simp only [insertEvent, if_neg h, List.map_cons, ih]
      by_cases hk : k ∈ rest.map Prod.fst
      · simp [hk, List.mem_cons, Ne.symm h]
      · simp [hk, List.mem_cons, Ne.symm h]

/-- Appending an event with a different key does not change a group. -/
theorem groupOf_append_ne {e : RawEvent} {k : String} (h : rollupKey e ≠ k)
    (processed : List RawEvent) :
    groupOf (processed ++ [e]) k = groupOf processed k := by
  simp [groupOf, List.filter_append, List.filter_cons, h]

/-- Appending an event with key k pushes it onto the group at k. -/
theorem groupOf_append_self (e : RawEvent) (processed : List RawEvent) :
    groupOf (processed ++ [e]) (rollupKey e) =
      { events := (groupOf processed (rollupKey e)).events ++ [e]
        users := addToSet (groupOf processed (rollupKey e)).users e.user_pseudo_id
        sessions := addToSet (groupOf processed (rollupKey e)).sessions e.session_id } := by
  simp [groupOf, List.filter_append, List.filter_cons, jsSetList, List.foldl_append]

/-- Entry characterization of one insertion: if all entries of the map hold
the group of the processed prefix, the key list has no duplicates, and a key
absent from the map has no matching processed events, then after inserting an
event every entry holds the group of the extended prefix. -/
theorem insertEvent_entries (e : RawEvent) :
    ∀ (m : List (String × RollupGroup)) (processed : List RawEvent),
      (m.map Prod.fst).Nodup →
      (∀ p ∈ m, p.2 = groupOf processed p.1) →
      (rollupKey e ∉ m.map Prod.fst →
        processed.filter (fun x => decide (rollupKey x = rollupKey e)) = []) →
      ∀ p ∈ insertEvent (rollupKey e) e m, p.2 = groupOf (processed ++ [e]) p.1 := by
  intro m
  induction m with
  | nil =>
    intro processed _ _ hout p hp
    simp only [insertEvent, List.mem_singleton] at hp
    subst hp
    have hnil : processed.filter (fun x => decide (rollupKey x = rollupKey e)) = [] :=
      hout (by simp)
    simp [groupOf_append_self, groupOf, hnil, jsSetList, addToSet]
  | cons hd rest ih =>
    intro processed hnd h1 hout p hp
    obtain ⟨k', g⟩ := hd
    have hndr : (rest.map Prod.fst).Nodup := (List.nodup_cons.mp hnd).2
    have hk'nr : k' ∉ rest.map Prod.fst := (List.nodup_cons.mp hnd).1
    by_cases hk : k' = rollupKey e
    · rw [insertEvent, if_pos hk] at hp
      rcases List.mem_cons.mp hp with hp1 | hp2
      · have hg : g = groupOf processed k' := h1 (k', g) (List.mem_cons_self _ _)
        rw [hp1]
        simp only [hk, hg, groupOf_append_self]
      · have hmem : p ∈ (k', g) :: rest := List.mem_cons_of_mem _ hp2
        have hpne : p.1 ≠ rollupKey e := by
          intro hcon
          apply hk'nr
          rw [hk, ← hcon]
          exact List.mem_map_of_mem Prod.fst hp2
        rw [h1 p hmem]
        exact (groupOf_append_ne (fun hc => hpne hc.symm) processed).symm
    · rw [insertEvent, if_neg hk] at hp
      rcases List.mem_cons.mp hp with hp1 | hp2
      · rw [hp1]
        have hg : g = groupOf processed k' := h1 (k', g) (List.mem_cons_self _ _)
        rw [hg]
        exact (groupOf_append_ne (fun hc => hk hc.symm) processed).symm
      · refine ih processed hndr (fun q hq => h1 q (List.mem_cons_of_mem _ hq)) ?_ p hp2
        intro hnotin
        refine hout ?_
        simp only [List.map_cons, List.mem_cons]
        rintro (hc | hc)
        · exact hk hc.symm
        · exact hnotin hc

/-- The grouping invariant: every map entry holds exactly the group of the
processed events at its key, the keys are distinct, every processed event's
key is present, and every present key comes from a processed event. -/
def groupsInv (processed : List RawEvent) (m : List (String × RollupGroup)) : Prop :=
  (∀ p ∈ m, p.2 = groupOf processed p.1) ∧
  (m.map Prod.fst).Nodup ∧
  (∀ e ∈ processed, rollupKey e ∈ m.map Prod.fst) ∧
  (∀ k ∈ m.map Prod.fst, k ∈ processed.map rollupKey)

/-- One insertion preserves the grouping invariant. -/
theorem insertEvent_inv {processed : List RawEvent} {m : List (String × RollupGroup)}
    (h : groupsInv processed m) (e : RawEvent) :
    groupsInv (processed ++ [e]) (insertEvent (rollupKey e) e m) := by
  obtain ⟨h1, h2, h3, h4⟩ := h
  refine ⟨?_, ?_, ?_, ?_⟩
  · refine insertEvent_entries e m processed h2 h1 ?_
    intro hnot
    rw [List.filter_eq_nil]
    intro x hx hkey
    exact hnot ((decide_eq_true_eq.mp hkey) ▸ h3 x hx)
  · rw [insertEvent_keys]
    split
    · exact h2
    · next hnew =>
        rw [List.nodup_append]
        exact ⟨h2, List.nodup_singleton _, by simpa using fun hc => hnew hc⟩
  · intro x hx
    rw [insertEvent_keys]
    rcases List.mem_append.mp hx with hx | hx
    · split
      · exact h3 x hx
      · exact List.mem_append_left _ (h3 x hx)
    · simp only [List.mem_singleton] at hx
      subst hx
      split
      · assumption
      · exact List.mem_append_right _ (List.mem_singleton_self _)
  · intro k hk
    rw [insertEvent_keys] at hk
    have hsub : k ∈ m.map Prod.fst ∨ k = rollupKey e := by
      by_cases hc : rollupKey e ∈ m.map Prod.fst
      · rw [if_pos hc] at hk
        exact Or.inl hk
      · rw [if_neg hc] at hk
        rcases List.mem_append.mp hk with hk | hk
        · exact Or.inl hk
        · exact Or.inr (List.mem_singleton.mp hk)
    rcases hsub with hk' | hk'
    · exact List.map_append rollupKey processed [e] ▸ List.mem_append_left _ (h4 k hk')
    · subst hk'
      exact List.map_append rollupKey processed [e] ▸
        List.mem_append_right _ (List.mem_singleton_self _)

/-- The grouping pass preserves the invariant over any suffix of events. -/
theorem rollupFold_inv :
    ∀ (l processed : List RawEvent) (m : List (String × RollupGroup)),
      groupsInv processed m → groupsInv (processed ++ l) (rollupFold l m) := by
  intro l
  induction l with
  | nil =>
    intro processed m h
    simpa [rollupFold] using h
  | cons e rest ih =>
    intro processed m h
    have h' := insertEvent_inv h e
    have := ih (processed ++ [e]) _ h'
    simpa [List.append_assoc] using this

/-- The grouping of a full corpus: every produced entry is the group of the
corpus at its key, and its key is the key of some corpus event. -/
theorem rollupFold_entries (raw : List RawEvent) :
    ∀ p ∈ rollupFold raw [], p.2 = groupOf raw p.1 ∧ p.1 ∈ raw.map rollupKey := by
  have h0 : groupsInv [] [] := by
    refine ⟨?_, ?_, ?_, ?_⟩ <;> simp
  have h := rollupFold_inv raw [] [] h0
  intro p hp
  exact ⟨h.1 p hp, h.2.2.2 p.1 (List.mem_map_of_mem Prod.fst hp)⟩

/-- Folding Set additions never empties a nonempty accumulator. -/
theorem foldl_addToSet_ne_nil (l : List String) :
    ∀ acc : List String, acc ≠ [] → l.foldl addToSet acc ≠ [] := by
  induction l with
  | nil => intro acc h; simpa using h
  | cons x xs ih =>
    intro acc h
    refine ih (addToSet acc x) ?_
    unfold addToSet
    split
    · exact h
    · exact List.append_ne_nil_of_right_ne_nil _ (by simp)

/-- The Set model of a nonempty member list is nonempty. -/
theorem jsSetList_ne_nil {l : List String} (h : l ≠ []) : jsSetList l ≠ [] := by
  obtain ⟨x, xs, rfl⟩ := List.exists_cons_of_ne_nil h
  unfold jsSetList
  simp only [List.foldl_cons]
  refine foldl_addToSet_ne_nil xs (addToSet [] x) ?_
  simp [addToSet]

/-- C10: every rollup produced by generateDailyRollups counts at least one
event, one user and one session — a group exists only because some event was
inserted into it, and that insertion also populated the user and session
sets — so in particular the crash-rate division by sessions_count never
divides by zero. -/
theorem generateDailyRollups_counts_positive (raw : List RawEvent) (r : DailyRollup)
    (hr : r ∈ generateDailyRollups raw) :
    1 ≤ r.events_count ∧ 1 ≤ r.users_count ∧ 1 ≤ r.sessions_count := by
  obtain ⟨p, hp, hrr⟩ := List.mem_map.mp hr
  obtain ⟨hg, hk⟩ := rollupFold_entries raw p hp
  obtain ⟨e0, he0, hkey⟩ := List.mem_map.mp hk
  have hev : e0 ∈ (groupOf raw p.1).events := by
    simp [groupOf, List.mem_filter, he0, hkey]
  have hevne : (groupOf raw p.1).events ≠ [] := fun hc => by simp [hc] at hev
  have husers : (groupOf raw p.1).users ≠ [] := by
    have husr : (groupOf raw p.1).users =
        jsSetList ((groupOf raw p.1).events.map (fun e => e.user_pseudo_id)) := rfl
    rw [husr]
    exact jsSetList_ne_nil (fun hc => hevne (List.map_eq_nil.mp hc))
  have hsess : (groupOf raw p.1).sessions ≠ [] := by
    have hses : (groupOf raw p.1).sessions =
        jsSetList ((groupOf raw p.1).events.map (fun e => e.session_id)) := rfl
    rw [hses]
    exact jsSetList_ne_nil (fun hc => hevne (List.map_eq_nil.mp hc))
  have hcounts : r.events_count = p.2.events.length ∧
      r.users_count = p.2.users.length ∧ r.sessions_count = p.2.sessions.length := by
    rw [← hrr]
    exact ⟨rfl, rfl, rfl⟩
  refine ⟨?_, ?_, ?_⟩
  · rw [hcounts.1, hg]
    exact List.length_pos.mpr hevne
  · rw [hcounts.2.1, hg]
    exact List.length_pos.mpr husers
  · rw [hcounts.2.2, hg]
    exact List.length_pos.mpr hsess

/-- A hand-written analytics event used as concrete input for witnesses. -/
def testEvent : RawEvent :=
  { id := "e1", source := "analytics", timestamp := 0, day := "19000", hour := 10,
    app_id := "eabank_main", app_name := "EABank Mobile", platform := "ios",
    release_channel := "prod", app_version := "3.2.1", build_number := "3210",
    os_version := "iOS 17.1", device_model := "iPhone 14", device_tier := "high",
    country := "KE", locale := "EN", network_type := "wifi", carrier := none,
    session_id := "s1", user_pseudo_id := "u1", count := 1, event_name := "balance_check",
    screen := some "Dashboard", http_method := none, value_num := none, revenue_usd := 0,
    duration_ms := none, ttfb_ms := none, payload_bytes := none, status_code := none,
    success := none, fps_avg := none, cpu_ms := none, memory_mb := none,
    is_crash := 0, is_fatal := 0, crash_group_id := none, exception_type := none,
    perf_type := none, trace_name := none, analytics_event := some "balance_check",
    foreground := none, crash_type := none, url_path := none, currency := none,
    transaction_type := none, account_type := none, branch_code := none }

/-- The rollup of the empty group, used as the lookup default of concrete
runs. -/
def defaultRollup : DailyRollup := mkRollup "" { events := [], users := [], sessions := [] }

/-- Witness for C10: the single rollup of a one-event corpus. -/
theorem generateDailyRollups_counts_positive_witness :
    1 ≤ ((generateDailyRollups [testEvent]).getD 0 defaultRollup).events_count ∧
    1 ≤ ((generateDailyRollups [testEvent]).getD 0 defaultRollup).users_count ∧
    1 ≤ ((generateDailyRollups [testEvent]).getD 0 defaultRollup).sessions_count :=
  generateDailyRollups_counts_positive [testEvent]
    ((generateDailyRollups [testEvent]).getD 0 defaultRollup) (by decide)

/-- The percentile index floor(n*q) is a valid index for 0 <= q < 1 and a
nonempty list. -/
theorem percentile_idx_lt (n : ℕ) (hn : 0 < n) {q : ℚ} (h1 : q < 1) :
    (jsFloor ((n : ℚ) * q)).toNat < n := by
  have hlt : jsFloor ((n : ℚ) * q) < (n : ℤ) := by
    apply Int.floor_lt.mpr
    push_cast
    calc (n : ℚ) * q < (n : ℚ) * 1 :=
          mul_lt_mul_of_pos_left h1 (by exact_mod_cast hn)
      _ = (n : ℚ) := mul_one _
  omega

/-- The percentile index is monotone in the quantile. -/
theorem percentile_idx_mono (n : ℕ) {q q' : ℚ} (h : q ≤ q') :
    (jsFloor ((n : ℚ) * q)).toNat ≤ (jsFloor ((n : ℚ) * q')).toNat := by
  have hle : jsFloor ((n : ℚ) * q) ≤ jsFloor ((n : ℚ) * q') :=
    Int.floor_le_floor (mul_le_mul_of_nonneg_left h (by positivity))
  omega

/-- Percentile shape of one finalized group: whenever the average-duration
field is emitted (the group has a duration-bearing event), the three
percentile indices are valid indices into the ascending-sorted duration list
(so the three fields are emitted) and the values are monotone. -/
theorem mkRollup_percentiles (k : String) (g : RollupGroup)
    (hd : (mkRollup k g).avg_duration_ms ≠ none) :
    ∃ a b c, (mkRollup k g).p50_duration_ms = some a ∧
      (mkRollup k g).p90_duration_ms = some b ∧
      (mkRollup k g).p99_duration_ms = some c ∧ a ≤ b ∧ b ≤ c := by
  have hp50 : (mkRollup k g).p50_duration_ms =
      (if 0 < (List.insertionSort (· ≤ ·) (g.events.filterMap (fun e => e.duration_ms))).length
       then (List.insertionSort (· ≤ ·) (g.events.filterMap (fun e => e.duration_ms))).get?
         (jsFloor (((List.insertionSort (· ≤ ·) (g.events.filterMap (fun e => e.duration_ms))).length : ℚ) * 0.5)).toNat
       else none) := rfl
  have hp90 : (mkRollup k g).p90_duration_ms =
      (if 0 < (List.insertionSort (· ≤ ·) (g.events.filterMap (fun e => e.duration_ms))).length
       then (List.insertionSort (· ≤ ·) (g.events.filterMap (fun e => e.duration_ms))).get?
         (jsFloor (((List.insertionSort (· ≤ ·) (g.events.filterMap (fun e => e.duration_ms))).length : ℚ) * 0.9)).toNat
       else none) := rfl
  have hp99 : (mkRollup k g).p99_duration_ms =
      (if 0 < (List.insertionSort (· ≤ ·) (g.events.filterMap (fun e => e.duration_ms))).length
       then (List.insertionSort (· ≤ ·) (g.events.filterMap (fun e => e.duration_ms))).get?
         (jsFloor (((List.insertionSort (· ≤ ·) (g.events.filterMap (fun e => e.duration_ms))).length : ℚ) * 0.99)).toNat
       else none) := rfl
  have havg : (mkRollup k g).avg_duration_ms =
      (if 0 < (List.insertionSort (· ≤ ·) (g.events.filterMap (fun e => e.duration_ms))).length
       then some ((jsRound
         ((List.insertionSort (· ≤ ·) (g.events.filterMap (fun e => e.duration_ms))).sum /
          ((List.insertionSort (· ≤ ·) (g.events.filterMap (fun e => e.duration_ms))).length : ℚ)) : ℚ))
       else none) := rfl
  generalize hL : List.insertionSort (· ≤ ·) (g.events.filterMap (fun e => e.duration_ms)) = L at *
  have hpos : 0 < L.length := by
    by_contra hc
    rw [havg, if_neg hc] at hd
    exact hd rfl
  have hsorted : L.Sorted (· ≤ ·) := hL ▸ List.sorted_insertionSort (· ≤ ·) _
  have h50 : (jsFloor ((L.length : ℚ) * 0.5)).toNat < L.length :=
    percentile_idx_lt L.length hpos (by norm_num)
  have h90 : (jsFloor ((L.length : ℚ) * 0.9)).toNat < L.length :=
    percentile_idx_lt L.length hpos (by norm_num)
  have h99 : (jsFloor ((L.length : ℚ) * 0.99)).toNat < L.length :=
    percentile_idx_lt L.length hpos (by norm_num)
  refine ⟨L.get ⟨_, h50⟩, L.get ⟨_, h90⟩, L.get ⟨_, h99⟩, ?_, ?_, ?_, ?_, ?_⟩
  · rw [hp50, if_pos hpos, List.get?_eq_get h50]
  · rw [hp90, if_pos hpos, List.get?_eq_get h90]
  · rw [hp99, if_pos hpos, List.get?_eq_get h99]
  · exact hsorted.rel_get_of_le (by
      simpa using percentile_idx_mono L.length (by norm_num : (0.5:ℚ) ≤ 0.9))
  · exact hsorted.rel_get_of_le (by
      simpa using percentile_idx_mono L.length (by norm_num : (0.9:ℚ) ≤ 0.99))

/-- C8: every rollup of a group with at least one duration-bearing event
(witnessed by its emitted average) has valid percentile indices into the
sorted duration list, and the emitted percentiles satisfy
p50_duration_ms <= p90_duration_ms <= p99_duration_ms. -/
theorem generateDailyRollups_percentiles_monotone (raw : List RawEvent)
    (r : DailyRollup) (hr : r ∈ generateDailyRollups raw)
    (hd : r.avg_duration_ms ≠ none) :
    ∃ a b c, r.p50_duration_ms = some a ∧ r.p90_duration_ms = some b ∧
      r.p99_duration_ms = some c ∧ a ≤ b ∧ b ≤ c := by
  obtain ⟨p, hp, hrr⟩ := List.mem_map.mp hr
  rw [← hrr] at hd ⊢
  exact mkRollup_percentiles p.1 p.2 hd

/-- A duration-bearing performance event for the C8 witness. -/
def testPerfEventA : RawEvent :=
  { testEvent with
    id := "p1"
    source := "performance"
    event_name := "api_call"
    analytics_event := none
    perf_type := some "http"
    duration_ms := some 5
    status_code := some 200
    success := some true }

/-- A second duration-bearing performance event sharing the same rollup
key. -/
def testPerfEventB : RawEvent :=
  { testPerfEventA with
    id := "p2"
    duration_ms := some 9 }

/-- Witness for C8: the rollup of two same-key performance events with
durations 5 and 9. -/
theorem generateDailyRollups_percentiles_monotone_witness :
    ∃ a b c,
      ((generateDailyRollups [testPerfEventA, testPerfEventB]).getD 0 defaultRollup).p50_duration_ms = some a ∧
      ((generateDailyRollups [testPerfEventA, testPerfEventB]).getD 0 defaultRollup).p90_duration_ms = some b ∧
      ((generateDailyRollups [testPerfEventA, testPerfEventB]).getD 0 defaultRollup).p99_duration_ms = some c ∧
      a ≤ b ∧ b ≤ c :=
  generateDailyRollups_percentiles_monotone [testPerfEventA, testPerfEventB]
    ((generateDailyRollups [testPerfEventA, testPerfEventB]).getD 0 defaultRollup)
    (by decide) (by decide)

/-- A pipe-free character list fails the pipe predicate everywhere. -/
theorem pipeFree_pred {l : List Char} (h : '|' ∉ l) :
    ∀ x ∈ l, ¬((x == '|') = true) := by
  intro x hx hc
  exact h (beq_iff_eq.mp hc ▸ hx)

/-- Splitting at the first pipe after a pipe-free chunk. -/
theorem splitOnP_pipe_cons {s : List Char} (hs : '|' ∉ s) (rest : List Char) :
    List.splitOnP (fun c => c == '|') (s ++ '|' :: rest) =
      s :: List.splitOnP (fun c => c == '|') rest :=
  List.splitOnP_first _ s (pipeFree_pred hs) '|' (by simp) rest

/-- The nine components of an event's composite key, in key order. -/
def keyParts (e : RawEvent) : List String :=
  [e.day, e.source, e.platform, e.app_id, e.app_version, e.release_channel,
   e.country, e.device_tier, eventGroupOf e]

/-- No component of the event's composite key contains the pipe delimiter.
The last conjunct is about the derived event_group string. -/
def pipeFreeEvent (e : RawEvent) : Prop :=
  '|' ∉ e.day.data ∧ '|' ∉ e.source.data ∧ '|' ∉ e.platform.data ∧
  '|' ∉ e.app_id.data ∧ '|' ∉ e.app_version.data ∧ '|' ∉ e.release_channel.data ∧
  '|' ∉ e.country.data ∧ '|' ∉ e.device_tier.data ∧ '|' ∉ (eventGroupOf e).data

instance (e : RawEvent) : Decidable (pipeFreeEvent e) := by
  unfold pipeFreeEvent
  infer_instance

/-- Splitting the composite key of a pipe-free event recovers exactly its
nine components. -/
theorem splitPipe_rollupKey (e : RawEvent) (h : pipeFreeEvent e) :
    splitPipe (rollupKey e) = keyParts e := by
  obtain ⟨h1, h2, h3, h4, h5, h6, h7, h8, h9⟩ := h
  unfold splitPipe rollupKey keyParts
  have hd : (e.day ++ "|" ++ e.source ++ "|" ++ e.platform ++ "|" ++ e.app_id ++ "|" ++
      e.app_version ++ "|" ++ e.release_channel ++ "|" ++ e.country ++ "|" ++
      e.device_tier ++ "|" ++ eventGroupOf e).data =
      e.day.data ++ '|' :: (e.source.data ++ '|' :: (e.platform.data ++ '|' :: (e.app_id.data ++
      '|' :: (e.app_version.data ++ '|' :: (e.release_channel.data ++ '|' :: (e.country.data ++
      '|' :: (e.device_tier.data ++ '|' :: (eventGroupOf e).data))))))) := by
    have hpipe : ("|" : String).data = ['|'] := rfl
    simp [String.data_append, hpipe]
  rw [hd, splitOnP_pipe_cons h1, splitOnP_pipe_cons h2, splitOnP_pipe_cons h3,
    splitOnP_pipe_cons h4, splitOnP_pipe_cons h5, splitOnP_pipe_cons h6,
    splitOnP_pipe_cons h7, splitOnP_pipe_cons h8,
    List.splitOnP_eq_single _ _ (pipeFree_pred h9)]
  rfl

/-- Between pipe-free events, key equality is exactly componentwise
equality. -/
theorem rollupKey_eq_iff {e e' : RawEvent} (he : pipeFreeEvent e) (he' : pipeFreeEvent e') :
    rollupKey e = rollupKey e' ↔ keyParts e = keyParts e' := by
  constructor
  · intro h
    rw [← splitPipe_rollupKey e he, ← splitPipe_rollupKey e' he', h]
  · intro h
    simp only [keyParts, List.cons.injEq, and_true] at h
    obtain ⟨q1, q2, q3, q4, q5, q6, q7, q8, q9⟩ := h
    unfold rollupKey
    rw [q1, q2, q3, q4, q5, q6, q7, q8, q9]

/-- An event matches a rollup when its nine key dimensions (the ninth being
the derived event group) equal the rollup's. -/
def matchesRollup (e : RawEvent) (r : DailyRollup) : Prop :=
  e.day = r.day ∧ e.source = r.source ∧ e.platform = r.platform ∧
  e.app_id = r.app_id ∧ e.app_version = r.app_version ∧
  e.release_channel = r.release_channel ∧ e.country = r.country ∧
  e.device_tier = r.device_tier ∧ eventGroupOf e = r.event_group

instance (e : RawEvent) (r : DailyRollup) : Decidable (matchesRollup e r) := by
  unfold matchesRollup
  infer_instance

/-- C2 (amended): over a corpus none of whose key components contains the
pipe delimiter, every rollup's events_count equals the number of corpus
events whose nine key dimensions equal the rollup's. -/
theorem generateDailyRollups_events_count (raw : List RawEvent)
    (hpf : ∀ e ∈ raw, pipeFreeEvent e) (r : DailyRollup)
    (hr : r ∈ generateDailyRollups raw) :
    r.events_count = (raw.filter (fun e => decide (matchesRollup e r))).length := by
  obtain ⟨p, hp, hrr⟩ := List.mem_map.mp hr
  obtain ⟨hg, hk⟩ := rollupFold_entries raw p hp
  obtain ⟨e0, he0, hkey⟩ := List.mem_map.mp hk
  have hpf0 := hpf e0 he0
  have hparts : splitPipe p.1 = keyParts e0 := by
    rw [← hkey]
    exact splitPipe_rollupKey e0 hpf0
  have hday : r.day = e0.day := by
    rw [← hrr, show (mkRollup p.1 p.2).day = (splitPipe p.1).getD 0 "undefined" from rfl, hparts]
    rfl
  have hsrc : r.source = e0.source := by
    rw [← hrr, show (mkRollup p.1 p.2).source = (splitPipe p.1).getD 1 "undefined" from rfl, hparts]
    rfl
  have hplat : r.platform = e0.platform := by
    rw [← hrr, show (mkRollup p.1 p.2).platform = (splitPipe p.1).getD 2 "undefined" from rfl, hparts]
    rfl
  have happ : r.app_id = e0.app_id := by
    rw [← hrr, show (mkRollup p.1 p.2).app_id = (splitPipe p.1).getD 3 "undefined" from rfl, hparts]
    rfl
  have hver : r.app_version = e0.app_version := by
    rw [← hrr, show (mkRollup p.1 p.2).app_version = (splitPipe p.1).getD 4 "undefined" from rfl, hparts]
    rfl
  have hch : r.release_channel = e0.release_channel := by
    rw [← hrr, show (mkRollup p.1 p.2).release_channel = (splitPipe p.1).getD 5 "undefined" from rfl, hparts]
    rfl
  have hco : r.country = e0.country := by
    rw [← hrr, show (mkRollup p.1 p.2).country = (splitPipe p.1).getD 6 "undefined" from rfl, hparts]
    rfl
  have hti : r.device_tier = e0.device_tier := by
    rw [← hrr, show (mkRollup p.1 p.2).device_tier = (splitPipe p.1).getD 7 "undefined" from rfl, hparts]
    rfl
  have heg : r.event_group = eventGroupOf e0 := by
    rw [← hrr, show (mkRollup p.1 p.2).event_group = (splitPipe p.1).getD 8 "undefined" from rfl, hparts]
    rfl
  have hcount : r.events_count = p.2.events.length := by
    rw [← hrr]
    rfl
  have hcong : ∀ x ∈ raw,
      (decide (rollupKey x = p.1) : Bool) = decide (matchesRollup x r) := by
    intro x hx
    have hiff : rollupKey x = p.1 ↔ matchesRollup x r := by
      rw [← hkey, rollupKey_eq_iff (hpf x hx) hpf0]
      unfold matchesRollup keyParts
      rw [hday, hsrc, hplat, happ, hver, hch, hco, hti, heg]
      simp only [List.cons.injEq, and_true]
    simp only [decide_eq_decide]
    exact hiff
  rw [hcount, hg]
  have : (groupOf raw p.1).events = raw.filter (fun e => decide (rollupKey e = p.1)) := rfl
  rw [this, List.filter_congr hcong]

/-- Witness for the amended C2 at a one-event corpus. -/
theorem generateDailyRollups_events_count_witness :
    ((generateDailyRollups [testEvent]).getD 0 defaultRollup).events_count =
      ([testEvent].filter (fun e => decide (matchesRollup e
        ((generateDailyRollups [testEvent]).getD 0 defaultRollup)))).length :=
  generateDailyRollups_events_count [testEvent] (by decide)
    ((generateDailyRollups [testEvent]).getD 0 defaultRollup) (by decide)

/-- An event whose day contains the pipe delimiter: its key parses into ten
parts and the destructured rollup dimensions are shifted. -/
def c2BadEvent : RawEvent := { testEvent with day := "x|y" }

/-- Counterexample to C2 as stated: on the one-event corpus containing
c2BadEvent, the only rollup has events_count 1 but zero corpus events match
its nine destructured dimensions, so events_count does not always equal the
number of events mapping to the rollup's 9-tuple. -/
theorem generateDailyRollups_events_count_counterexample :
    ((generateDailyRollups [c2BadEvent]).map (fun r =>
      (r.events_count, ([c2BadEvent].filter (fun e => decide (matchesRollup e r))).length))) =
      [(1, 0)] := by decide

/-- An event of a given source and country, for the C3 run. -/
def mkSrcEvent (src cty : String) : RawEvent :=
  { testEvent with
    source := src
    country := cty }

/-- The C3 corpus: 20 events whose realized source mix is exactly the
configured 0.65 / 0.3 / 0.05 and whose realized country mix is within 0.1 of
every configured country weight, with only valid locales. -/
def c3events : List RawEvent :=
  List.replicate 7 (mkSrcEvent "analytics" "KE") ++
  List.replicate 4 (mkSrcEvent "analytics" "UG") ++
  List.replicate 2 (mkSrcEvent "analytics" "TZ") ++
  [mkSrcEvent "performance" "TZ"] ++
  List.replicate 2 (mkSrcEvent "performance" "RW") ++
  List.replicate 2 (mkSrcEvent "performance" "DRC") ++
  [mkSrcEvent "performance" "SS", mkSrcEvent "crash" "SS"]

/-- C3, divergence run: on a corpus whose realized analytics, performance and
crash ratios all EQUAL their configured targets (and whose country ratios are
all within tolerance), the distribution check still appends the
performance-ratio warning — its guard compares the realized CRASH ratio
(0.05) against the configured performance ratio (0.3) — so the warning is not
appended exactly when the realized performance ratio strays by more than 0.1.
The message even renders the matching performance ratio 3/10. -/
theorem validateDistributions_perf_warning_uses_crash_ratio :
    sourceCount c3events "performance" = 6 ∧
    sourceCount c3events "analytics" = 13 ∧
    sourceCount c3events "crash" = 1 ∧
    c3events.length = 20 ∧
    ((sourceCount c3events "performance" : ℚ) / c3events.length = CONFIG.ratioPerformance) ∧
    ((sourceCount c3events "analytics" : ℚ) / c3events.length = CONFIG.ratioAnalytics) ∧
    ((sourceCount c3events "crash" : ℚ) / c3events.length = CONFIG.ratioCrash) ∧
    (validateDistributions CONFIG c3events).2 =
      ["Performance ratio 3/10 differs from expected 3/10"] := by
  decide

/-- The Fisher-Yates pass never changes the array size. -/
theorem shuffleStep_size (env : Env) :
    ∀ (n : ℕ) (arr : Array RawEvent) (st : RState),
      ((shuffleStep env n arr st).1).size = arr.size := by
  intro n
  induction n with
  | zero => intro arr st; rfl
  | succ i ih =>
    intro arr st
    simp only [shuffleStep]
    rw [ih]
    split
    · exact Array.size_swap _ _ _
    · rfl

/-- C5 (amended): the corpus returned by generateRawEvents has length
min(TOTAL_EVENTS_TARGET, size of the pre-shuffle corpus): the shuffle
preserves the length and the final slice truncates to the target.  In
particular the length never exceeds the target, and equals it exactly when at
least TOTAL_EVENTS_TARGET events were generated. -/
theorem generateRawEvents_length (cfg : Config) (env : Env) (st : RState) :
    (generateRawEvents cfg env st).1.length =
      min cfg.TOTAL_EVENTS_TARGET
        (daysLoop cfg env (jsRound ((cfg.SESSIONS_PER_DAY : ℚ) *
          ((cfg.TOTAL_EVENTS_TARGET : ℚ) / 45000))) cfg.DATE_RANGE_DAYS 0 st).1.length := by
  simp only [generateRawEvents]
  rw [List.length_take, Array.length_toList, shuffleStep_size, Array.size_toArray]

/-- The adversarial draw stream for the C5 counterexample: every day draws
its jitter at 0.5 (27 sessions on weekdays, 8 on weekends), and every session
draws country DRC (0.9), any locale (0.5), and a branch session (0.1 < 0.15),
so the branch filter over DRC's app catalog is empty and every session takes
the zero-event early exit.  Weekday blocks consume 1 + 27*3 = 82 draws,
weekend blocks 25, one week 460. -/
def c5Stream (n : ℕ) : ℚ :=
  let rem := n % 460
  let off := if rem < 410 then rem % 82 else if rem < 435 then rem - 410 else rem - 435
  if off = 0 then 0.5
  else if (off - 1) % 3 = 0 then 0.9
  else if (off - 1) % 3 = 1 then 0.5
  else 0.1

/-- The environment of the C5 counterexample. -/
def c5Env : Env :=
  { stream := c5Stream
    uuid := fun _ => "u"
    now := 0
    tz := 0
    exp := fun _ => 0
    log := fun _ => 0
    cos := fun _ => 0
    sqrt := fun _ => 0
    pi := 0 }

/-- The configuration of the C5 claim: the source CONFIG with the event
target set to 1000. -/
def cfg1000 : Config := { CONFIG with TOTAL_EVENTS_TARGET := 1000 }

/-- Counterexample to C5 as stated: with TOTAL_EVENTS_TARGET = 1000 there is
a draw stream under which every session is abandoned by the empty-app-filter
early exit, the pre-shuffle corpus is empty, and the returned collection has
length 0, not exactly 1000. -/
theorem generateRawEvents_length_counterexample :
    (generateRawEvents cfg1000 c5Env (0, 0)).1.length = 0 ∧
    cfg1000.TOTAL_EVENTS_TARGET = 1000 :=
  ⟨by decide, rfl⟩

/-- randomChoice only returns members of the list. -/
theorem randomChoice_mem {α : Type _} {l : List α} {u : ℚ} {a : α}
    (h : randomChoice l u = some a) : a ∈ l := by
  simp only [randomChoice] at h
  split at h
  · exact absurd h (by simp)
  · exact List.get?_mem h

/-- A crash event keeps the base identity and has source crash. -/
theorem mkCrashEvent_fields (env : Env) (ctx : SessionCtx) (base : RawEvent) (st : RState) :
    (mkCrashEvent env ctx base st).1.app_id = base.app_id ∧
    (mkCrashEvent env ctx base st).1.source = "crash" :=
  ⟨rfl, rfl⟩

/-- A performance event keeps the base identity and has source
performance. -/
theorem mkPerformanceEvent_fields (env : Env) (ctx : SessionCtx) (base : RawEvent) (st : RState) :
    (mkPerformanceEvent env ctx base st).1.app_id = base.app_id ∧
    (mkPerformanceEvent env ctx base st).1.source = "performance" := by
  by_cases h1 : ((randomChoice ["http", "screen", "trace", "app_start"]
      (draw env st).1).getD "undefined") = "http" <;>
  by_cases h2 : ((randomChoice ["http", "screen", "trace", "app_start"]
      (draw env st).1).getD "undefined") = "screen" <;>
  by_cases h3 : ((randomChoice ["http", "screen", "trace", "app_start"]
      (draw env st).1).getD "undefined") = "trace" <;>
  constructor <;> simp [mkPerformanceEvent, h1, h2, h3]

/-- An analytics event keeps the base identity and has source analytics. -/
theorem mkAnalyticsEvent_fields (env : Env) (ctx : SessionCtx) (base : RawEvent)
    (i : ℕ) (st : RState) :
    (mkAnalyticsEvent env ctx base i st).1.app_id = base.app_id ∧
    (mkAnalyticsEvent env ctx base i st).1.source = "analytics" := by
  by_cases hb : ctx.isBranchSession = true <;> constructor <;>
    simp [mkAnalyticsEvent, hb]

/-- The shape of a BRANCH analytics event: account_type is attached exactly
for customer_account_opened, while branch_code is attached always. -/
theorem mkAnalyticsEvent_branch_shape (env : Env) (ctx : SessionCtx) (base : RawEvent)
    (i : ℕ) (st : RState) (hb : ctx.isBranchSession = true) :
    ((mkAnalyticsEvent env ctx base i st).1.account_type.isSome = true ↔
      (mkAnalyticsEvent env ctx base i st).1.analytics_event = some "customer_account_opened") ∧
    (mkAnalyticsEvent env ctx base i st).1.branch_code.isSome = true := by
  constructor
  · by_cases hc : ((randomChoice ["customer_account_opened", "transaction_processed",
        "kyc_completed", "cash_deposit", "customer_lookup"]
        (draw env st).1).getD "undefined") = "customer_account_opened"
    · simp [mkAnalyticsEvent, hb, hc]
    · simp [mkAnalyticsEvent, hb, hc]
  · simp [mkAnalyticsEvent, hb]

/-- The per-slot invariant of the event loop: every produced event carries
the session's app id, and in a branch session every analytics event has the
branch-analytics field shape. -/
theorem eventLoop_events (env : Env) (ctx : SessionCtx) :
    ∀ (fuel i : ℕ) (st : RState) (e : RawEvent), e ∈ (eventLoop env ctx fuel i st).1 →
      e.app_id = ctx.app.id ∧
      (ctx.isBranchSession = true → e.source = "analytics" →
        ((e.account_type.isSome = true ↔ e.analytics_event = some "customer_account_opened") ∧
         e.branch_code.isSome = true)) := by
  intro fuel
  induction fuel with
  | zero =>
    intro i st e he
    simp [eventLoop] at he
  | succ n ih =>
    intro i st e he
    simp only [eventLoop] at he
    rcases List.mem_cons.mp he with hhd | htl
    · have hbapp : (mkBaseEvent env ctx st).1.app_id = ctx.app.id := rfl
      by_cases hcr : (shouldCrash env ctx.versionInfo ctx.device.tier
          ctx.releaseChannel ctx.currentDate (mkBaseEvent env ctx st).2).1 = true
      · rw [if_pos hcr] at hhd
        subst hhd
        obtain ⟨ha, hs⟩ := mkCrashEvent_fields env ctx (mkBaseEvent env ctx st).1
          (shouldCrash env ctx.versionInfo ctx.device.tier ctx.releaseChannel
            ctx.currentDate (mkBaseEvent env ctx st).2).2
        refine ⟨by rw [ha, hbapp], ?_⟩
        intro _ hsrc
        rw [hs] at hsrc
        exact absurd hsrc (by decide)
      · rw [if_neg hcr] at hhd
        by_cases hrat : (draw env (shouldCrash env ctx.versionInfo ctx.device.tier
            ctx.releaseChannel ctx.currentDate (mkBaseEvent env ctx st).2).2).1 <
            ctx.cfg.ratioAnalytics / (ctx.cfg.ratioAnalytics + ctx.cfg.ratioPerformance)
        · rw [if_pos hrat] at hhd
          subst hhd
          constructor
          · rw [(mkAnalyticsEvent_fields env ctx (mkBaseEvent env ctx st).1 i _).1, hbapp]
          · intro hbr _
            exact mkAnalyticsEvent_branch_shape env ctx (mkBaseEvent env ctx st).1 i _ hbr
        · rw [if_neg hrat] at hhd
          subst hhd
          obtain ⟨ha, hs⟩ := mkPerformanceEvent_fields env ctx (mkBaseEvent env ctx st).1
            (draw env (shouldCrash env ctx.versionInfo ctx.device.tier ctx.releaseChannel
              ctx.currentDate (mkBaseEvent env ctx st).2).2).2
          refine ⟨by rw [ha, hbapp], ?_⟩
          intro _ hsrc
          rw [hs] at hsrc
          exact absurd hsrc (by decide)
    · exact ih (i + 1) _ e htl

/-- Events of the session tail: each carries the id of the app chosen from
the available list (or the JS undefined on an out-of-range draw), and branch
sessions give analytics events the branch field shape. -/
theorem sessionRest_events (cfg : Config) (env : Env) (d : ℕ) (sid : String) (cd : ℤ)
    (country : CountryRec) (locale : LocaleRec) (isB : Bool) (apps : List AppRec)
    (st : RState) (e : RawEvent)
    (he : e ∈ (sessionRest cfg env d sid cd country locale isB apps st).1) :
    (∃ a : AppRec, (a ∈ apps ∨ a = undefinedApp) ∧ e.app_id = a.id) ∧
    (isB = true → e.source = "analytics" →
      ((e.account_type.isSome = true ↔ e.analytics_event = some "customer_account_opened") ∧
       e.branch_code.isSome = true)) := by
  obtain ⟨h1, h2⟩ := eventLoop_events env _ _ _ _ e he
  constructor
  · refine ⟨(randomChoice apps (draw env st).1).getD undefinedApp, ?_, h1⟩
    cases hrc : randomChoice apps (draw env st).1 with
    | none => right; simp
    | some a => left; simpa using randomChoice_mem hrc
  · intro hb hsrc
    exact h2 hb hsrc

/-- C4 (amended): in every generated session, every analytics event of a
branch session (the only sessions whose events can carry the branch app id)
has account_type attached exactly when the event is customer_account_opened,
while the synthesized branch_code is attached to EVERY branch analytics
event, not only to account openings. -/
theorem generateSession_branch_analytics (cfg : Config) (env : Env) (d : ℕ) (st : RState)
    (e : RawEvent) (he : e ∈ (generateSession cfg env d st).1)
    (happ : e.app_id = "eabank_branch") (hsrc : e.source = "analytics") :
    (e.account_type.isSome = true ↔ e.analytics_event = some "customer_account_opened") ∧
    e.branch_code.isSome = true := by
  unfold generateSession at he
  dsimp only at he
  split at he
  · simp at he
  · obtain ⟨⟨a, hmem, happid⟩, hshape⟩ :=
      sessionRest_events _ _ _ _ _ _ _ _ _ _ e he
    by_cases hbr : (decide ((draw env (draw env (draw env (freshUuid env st).2).2).2).1 < 0.15)) = true
    · exact hshape hbr hsrc
    · rw [Bool.not_eq_true] at hbr
      exfalso
      rcases hmem with hmem | hmem
      · rw [hbr] at hmem
        unfold branchFilteredApps at hmem
        simp only [Bool.false_eq_true, if_false] at hmem
        obtain ⟨hin, hnb⟩ := List.mem_filter.mp hmem
        obtain ⟨hinA, _⟩ := List.mem_filter.mp hin
        have h3 : a = APPS.get ⟨0, by decide⟩ ∨ a = APPS.get ⟨1, by decide⟩ ∨
            a = APPS.get ⟨2, by decide⟩ := by
          simpa [APPS] using hinA
        rcases h3 with h | h | h <;> subst h <;> simp_all [APPS]
      · subst hmem
        rw [happid] at happ
        exact absurd happ (by decide)

/-- The concrete branch-session run for C4: the first draws select country
KE, a branch session, the branch app on web/prod, and a first event that is
a branch analytics event transaction_processed with area KMP and sequence 1;
new Date() is far past every release date so no spike factor (and no
transcendental) is ever consulted. -/
def c4Env : Env :=
  { stream := fun n => List.getD [(0.1 : ℚ), 0.1, 0.1, 0.1, 0.1, 0.1, 0.1, 0.1, 0.1, 0.1,
      0.2, 0.1, 0, 0, 0, 0.9, 0.1, 0.3, 0.1, 0.1, 0] n 0.9
    uuid := fun _ => "abcd"
    now := dateMs 2025 12 1
    tz := 0
    exp := fun _ => 0
    log := fun _ => 0
    cos := fun _ => 0
    sqrt := fun _ => 0
    pi := 0 }

/-- Witness for the amended C4 at the concrete branch-session run. -/
theorem generateSession_branch_analytics_witness :
    ((((generateSession CONFIG c4Env 0 (0, 0)).1.getD 0 testEvent).account_type.isSome = true) ↔
      ((generateSession CONFIG c4Env 0 (0, 0)).1.getD 0 testEvent).analytics_event =
        some "customer_account_opened") ∧
    ((generateSession CONFIG c4Env 0 (0, 0)).1.getD 0 testEvent).branch_code.isSome = true :=
  generateSession_branch_analytics CONFIG c4Env 0 (0, 0)
    ((generateSession CONFIG c4Env 0 (0, 0)).1.getD 0 testEvent)
    (by decide) (by decide) (by decide)

/-- Counterexample to C4 as stated: the generated branch analytics event is
transaction_processed — not an account opening — yet it carries a synthesized
branch_code (while account_type is correctly absent), so branch_code is not
attached only when the event is customer_account_opened. -/
theorem generateSession_branch_code_counterexample :
    ((generateSession CONFIG c4Env 0 (0, 0)).1.getD 0 testEvent).analytics_event =
      some "transaction_processed" ∧
    ((generateSession CONFIG c4Env 0 (0, 0)).1.getD 0 testEvent).branch_code =
      some "KE_KMP_001" ∧
    ((generateSession CONFIG c4Env 0 (0, 0)).1.getD 0 testEvent).account_type = none ∧
    ((generateSession CONFIG c4Env 0 (0, 0)).1.getD 0 testEvent).app_id = "eabank_branch" :=
  ⟨by decide, by decide, by decide, by decide⟩
